import Mathlib

/-!
Verification of the pallet-engine, booking, membership and site subsystems of the
parking backend.  Every definition is a shallow embedding of the corresponding
JavaScript source (src/models/Machine.js, the Booking model, the booking, machine,
customer and site services); machine integers are modelled as `Int` where the source
does clamped arithmetic, timestamps as an abstract millisecond clock of type `Nat`,
and thrown errors as `Except` values.
-/

deriving instance DecidableEq for Except

namespace ParkingBackend

/-- Pallet status values, from PALLET_STATUS in src/utils/constants.js. -/
inductive PalletStatus
  | available
  | occupied
  | maintenance
  | blocked
deriving DecidableEq, Repr

/-- Machine status values, from MACHINE_STATUS in src/utils/constants.js. -/
inductive MachineStatus
  | online
  | offline
  | maintenance
  | error
deriving DecidableEq, Repr

/-- Vehicle classes, from VEHICLE_TYPES in src/utils/constants.js; the machineType
enum of the machine schema uses the same two values. -/
inductive VehicleType
  | twoWheeler
  | fourWheeler
deriving DecidableEq, Repr

/-- Machine kinematic type, the parkingType enum of the machine schema. -/
inductive ParkingType
  | rotary
  | puzzle
deriving DecidableEq, Repr

/-- One element of a pallet's currentBookings array, as pushed by occupyPallet in
src/models/Machine.js.  The source can leave position null in degenerate states, so
it is an `Option`. -/
structure BookingEntry where
  booking : String
  vehicleNumber : String
  occupiedSince : Nat
  position : Option Nat
deriving DecidableEq, Repr

/-- A pallet subdocument of the machine schema.  currentOccupancy is an `Int`
because the source updates it with clamped JS-number arithmetic. -/
structure Pallet where
  number : Nat
  customName : String
  status : PalletStatus
  vehicleCapacity : Int
  currentOccupancy : Int
  currentBookings : List BookingEntry
  occupiedSince : Option Nat
  maintenanceNotes : String
  lastMaintenance : Option Nat
deriving DecidableEq, Repr

/-- The machine document fields used by the pallet engine and its callers. -/
structure Machine where
  machineNumber : String
  siteId : String
  machineType : VehicleType
  parkingType : ParkingType
  status : MachineStatus
  pallets : List Pallet
  capacityTotal : Int
  capacityAvailable : Int
  capacityOccupied : Int
  capacityMaintenance : Int
deriving DecidableEq, Repr

/-- JS String.prototype.toUpperCase over the characters of the string, written
structurally so that concrete states evaluate inside the kernel. -/
def jsToUpper (s : String) : String := String.mk (s.data.map Char.toUpper)

/-- JS String.prototype.trim: drop whitespace from both ends, written
structurally. -/
def jsTrim (s : String) : String :=
  String.mk (((s.data.dropWhile Char.isWhitespace).reverse.dropWhile
    Char.isWhitespace).reverse)

/-- JS String.prototype.split on a single space, written structurally. -/
def jsSplitOnSpaceAux : List Char → List Char → List String
  | [], acc => [String.mk acc.reverse]
  | c :: cs, acc =>
    if c == ' ' then String.mk acc.reverse :: jsSplitOnSpaceAux cs []
    else jsSplitOnSpaceAux cs (c :: acc)

/-- JS split of a string on single spaces. -/
def jsSplitOnSpace (s : String) : List String := jsSplitOnSpaceAux s.data []

/-- The pallet lookup key of occupyPallet / releasePallet / releaseVehicle: the
source accepts either a JS number or a string. -/
inductive PalletKey
  | num (n : Nat)
  | str (s : String)
deriving DecidableEq, Repr

/-- JS parseInt applied to the key: a number parses to itself, a string parses its
leading decimal digits (none when the first character is not a digit). -/
def parseIntKey : PalletKey → Option Nat
  | .num n => some n
  | .str s =>
    let ds := s.toList.takeWhile (fun c => c.isDigit)
    if ds.isEmpty then none
    else some (ds.foldl (fun a c => a * 10 + (c.toNat - 48)) 0)

/-- JS toString applied to the key. -/
def keyToString : PalletKey → String
  | .num n => toString n
  | .str s => s

/-- The three-way pallet match used by occupyPallet, releasePallet and
releaseVehicle in src/models/Machine.js: p.number === key, or
p.number === parseInt(key), or p.customName === key.toString().  A strict equality
between a JS number and a JS string is always false, so the first disjunct only
fires for numeric keys. -/
def palletMatches (p : Pallet) (k : PalletKey) : Bool :=
  (match k with
    | .num n => p.number == n
    | .str _ => false)
  || (match parseIntKey k with
      | some n => p.number == n
      | none => false)
  || p.customName == keyToString k

/-- The machine with its pallet array replaced, as after an in-place mutation. -/
def withPallets (m : Machine) (ps : List Pallet) : Machine := { m with pallets := ps }

/-- Replace the first element satisfying q by its image under f, leaving the rest
unchanged; this is how an in-place mutation of the pallet returned by
this.pallets.find(...) acts on the pallet array. -/
def updateFirst {α : Type} (q : α → Bool) (f : α → α) : List α → List α
  | [] => []
  | a :: as => if q a then f a :: as else a :: updateFirst q f as

/-- The aggregate-counter block of machineSchema.pre of save in
src/models/Machine.js.  The pallet-initialization branch (isNew) and the
capacity-rewrite branch (isModified on machineType or parkingType) do not fire on
the saves issued by the pallet operations, so the effect of this.save() there is
exactly this recomputation. -/
def preSaveRecompute (m : Machine) : Machine :=
  if m.pallets.length > 0 then
    { m with
      capacityMaintenance :=
        ((m.pallets.filter (fun p => p.status == .maintenance)).length : Int)
      capacityAvailable :=
        m.pallets.foldl
          (fun acc p =>
            if p.status == .available then acc + (p.vehicleCapacity - p.currentOccupancy)
            else acc) 0
      capacityOccupied :=
        m.pallets.foldl
          (fun acc p =>
            if p.status == .occupied then acc + p.currentOccupancy else acc) 0 }
  else m

/-- Errors thrown by the instance methods of the machine model. -/
inductive MachineOpErr
  | palletNotFound (k : PalletKey)
  | palletFull
  | positionTaken (pos : Option Nat)
  | bookingNotFoundOnPallet
  | vehicleNotFoundOnPallet
deriving DecidableEq, Repr

/-- JS truthiness of the optional position argument of occupyPallet: null and 0 are
falsy. -/
def positionFalsy : Option Nat → Bool
  | none => true
  | some n => n == 0

/-- The position-search loop of occupyPallet: the first i in 1..6 that no current
booking occupies; the JS loop leaves the position variable untouched when every
slot is taken. -/
def nextFreePosition (entries : List BookingEntry) : Option Nat :=
  (List.range' 1 6).find? (fun i => !(entries.any (fun b => b.position == some i)))

/-- The per-pallet body of machineSchema.methods.occupyPallet, after the pallet has
been found: capacity check, position assignment (four-wheeler machines always use
position 1, overriding the caller; two-wheeler machines auto-assign the first free
slot in 1..6 when the caller passed a falsy position, and reject an occupied
position), then the push of the booking entry and the occupancy / status /
occupiedSince updates, in source order. -/
def occupyPalletUpdate (machineType : VehicleType) (p : Pallet)
    (bookingId vehicleNumber : String) (position : Option Nat) (now : Nat) :
    Except MachineOpErr Pallet :=
  if p.currentOccupancy ≥ p.vehicleCapacity then
    .error .palletFull
  else
    let posResult : Except MachineOpErr (Option Nat) :=
      match machineType with
      | .twoWheeler =>
        let pos :=
          if positionFalsy position then
            match nextFreePosition p.currentBookings with
            | some i => some i
            | none => position
          else position
        if p.currentBookings.any (fun b => b.position == pos) then
          .error (.positionTaken pos)
        else .ok pos
      | .fourWheeler => .ok (some 1)
    posResult.map fun pos =>
      let occ := p.currentOccupancy + 1
      { p with
        currentBookings := p.currentBookings ++
          [{ booking := bookingId, vehicleNumber := jsToUpper vehicleNumber,
             occupiedSince := now, position := pos }]
        currentOccupancy := occ
        status := if occ ≥ p.vehicleCapacity then .occupied else p.status
        occupiedSince := if occ == 1 then some now else p.occupiedSince }

/-- machineSchema.methods.occupyPallet followed by the save-time recomputation. -/
def Machine.occupyPallet (m : Machine) (k : PalletKey)
    (bookingId vehicleNumber : String) (position : Option Nat) (now : Nat) :
    Except MachineOpErr Machine :=
  match m.pallets.find? (fun p => palletMatches p k) with
  | none => .error (.palletNotFound k)
  | some p =>
    (occupyPalletUpdate m.machineType p bookingId vehicleNumber position now).map
      fun p1 =>
        preSaveRecompute
          { m with pallets := updateFirst (fun q => palletMatches q k) (fun _ => p1) m.pallets }

/-- The shared removal step of releasePallet and releaseVehicle: splice out the
first entry matching the predicate, clamp the occupancy with Math.max(0, c - 1),
and when the new occupancy is 0 set the status to available and clear
occupiedSince.  The source has no other status update on release. -/
def releaseUpdate (p : Pallet) (pred : BookingEntry → Bool) : Pallet :=
  let occ := max 0 (p.currentOccupancy - 1)
  { p with
    currentBookings := p.currentBookings.eraseP pred
    currentOccupancy := occ
    status := if occ == 0 then .available else p.status
    occupiedSince := if occ == 0 then none else p.occupiedSince }

/-- machineSchema.methods.releasePallet: find the pallet by the three-way key
match, find the occupant entry whose booking id string-equals the argument, remove
it, and save. -/
def Machine.releasePallet (m : Machine) (k : PalletKey) (bookingId : String) :
    Except MachineOpErr Machine :=
  match m.pallets.find? (fun p => palletMatches p k) with
  | none => .error (.palletNotFound k)
  | some p =>
    if p.currentBookings.any (fun b => b.booking == bookingId) then
      let p1 := releaseUpdate p (fun b => b.booking == bookingId)
      .ok (preSaveRecompute
        { m with pallets := updateFirst (fun q => palletMatches q k) (fun _ => p1) m.pallets })
    else .error .bookingNotFoundOnPallet

/-- machineSchema.methods.releaseVehicle: same as releasePallet but the occupant is
found by comparing the stored vehicleNumber with the uppercased argument. -/
def Machine.releaseVehicle (m : Machine) (k : PalletKey) (vehicleNumber : String) :
    Except MachineOpErr Machine :=
  match m.pallets.find? (fun p => palletMatches p k) with
  | none => .error (.palletNotFound k)
  | some p =>
    if p.currentBookings.any (fun b => b.vehicleNumber == jsToUpper vehicleNumber) then
      let p1 := releaseUpdate p (fun b => b.vehicleNumber == jsToUpper vehicleNumber)
      .ok (preSaveRecompute
        { m with pallets := updateFirst (fun q => palletMatches q k) (fun _ => p1) m.pallets })
    else .error .vehicleNotFoundOnPallet

/-- machineSchema.methods.setPalletMaintenance: the pallet is looked up by number
only, set to maintenance regardless of occupancy, and the machine saved. -/
def Machine.setPalletMaintenance (m : Machine) (palletNumber : Nat)
    (notes : String) (now : Nat) : Except MachineOpErr Machine :=
  match m.pallets.find? (fun p => p.number == palletNumber) with
  | none => .error (.palletNotFound (.num palletNumber))
  | some _ =>
    let f : Pallet → Pallet := fun p =>
      { p with status := .maintenance, maintenanceNotes := notes, lastMaintenance := some now }
    .ok (preSaveRecompute
      { m with pallets := updateFirst (fun p => p.number == palletNumber) f m.pallets })

/-- Error kinds surfaced by MachineService.occupyPallet: the service-level checks
(machine missing, machine not online) wrap the model-level errors.  The source
carries no maintenance-status check anywhere on this path. -/
inductive ServiceOccupyErr
  | machineNotFound
  | machineNotOnline
  | opFailed (e : MachineOpErr)
deriving DecidableEq, Repr

/-- MachineService.occupyPallet from the machine service: 404 when the machine id
resolves to nothing, 400 when the machine status is not online, then delegate to
the model method. -/
def MachineService.occupyPallet (machine : Option Machine) (k : PalletKey)
    (bookingId vehicleNumber : String) (position : Option Nat) (now : Nat) :
    Except ServiceOccupyErr Machine :=
  match machine with
  | none => .error .machineNotFound
  | some m =>
    if m.status ≠ .online then .error .machineNotOnline
    else
      match m.occupyPallet k bookingId vehicleNumber position now with
      | .ok m1 => .ok m1
      | .error e => .error (.opFailed e)

/-! ## Booking model and booking service -/

/-- Booking status values, from BOOKING_STATUS in src/utils/constants.js.  The
constant object has exactly these four keys; in particular there is no DELETED
key, so the source expression BOOKING_STATUS.DELETED evaluates to undefined. -/
inductive BookingStatus
  | active
  | completed
  | cancelled
  | expired
deriving DecidableEq, Repr

/-- Payment status values, from PAYMENT_STATUS in src/utils/constants.js. -/
inductive PaymentStatus
  | pending
  | completed
  | failed
  | refunded
deriving DecidableEq, Repr

/-- The OTP block embedded in a booking. -/
structure OTPBlock where
  code : String
  generatedAt : Nat
  expiresAt : Nat
  isUsed : Bool
  usedAt : Option Nat
deriving DecidableEq, Repr

/-- The payment block fields used by the embedded operations. -/
structure PaymentBlock where
  amount : Int
  payStatus : PaymentStatus
deriving DecidableEq, Repr

/-- The booking document.  The siteId audit field is modelled from the spec: the
copy of the booking schema under src predates it (the booking service sets and
queries siteId throughout), so it is carried here as a plain value per spec §3.1. -/
structure Booking where
  id : String
  bookingNumber : String
  siteId : String
  customer : String
  customerName : String
  phoneNumber : String
  vehicleNumber : String
  vehicleType : VehicleType
  machineNumber : String
  palletNumber : Nat
  status : BookingStatus
  startTime : Nat
  endTime : Option Nat
  otp : OTPBlock
  payment : PaymentBlock
  notes : String
  specialInstructions : String
  createdBy : String
  updatedBy : Option String
deriving DecidableEq, Repr

/-- bookingSchema.virtual isOTPValid: not used and not expired at the moment of
the check. -/
def Booking.isOTPValid (b : Booking) (now : Nat) : Bool :=
  !b.otp.isUsed && decide (now < b.otp.expiresAt)

/-- The query predicate of bookingSchema.statics.findByOTP: code equality, unused,
unexpired, status active. -/
def otpMatches (otpCode : String) (now : Nat) (b : Booking) : Bool :=
  b.otp.code == otpCode && !b.otp.isUsed && decide (now < b.otp.expiresAt)
    && b.status == .active

/-- bookingSchema.statics.findByOTP: the first booking whose OTP code matches, is
unused, is unexpired, and whose status is active. -/
def findByOTP (store : List Booking) (otpCode : String) (now : Nat) : Option Booking :=
  store.find? (otpMatches otpCode now)

/-- bookingSchema.methods.useOTP: throws when the OTP is invalid or expired,
otherwise marks it used and records the time. -/
def Booking.useOTP (b : Booking) (now : Nat) : Except String Booking :=
  if b.isOTPValid now then
    .ok { b with otp := { b.otp with isUsed := true, usedAt := some now } }
  else .error "OTP is invalid or expired"

/-- Errors surfaced by BookingService.verifyOTP. -/
inductive VerifyOTPErr
  | invalidOrExpiredOTP
  | verificationFailed
deriving DecidableEq, Repr

/-- BookingService.verifyOTP: look the booking up through findByOTP, fail with the
invalid-or-expired error when nothing matches, otherwise consume the OTP and save
the document (modelled by replacing the first store element that findByOTP
matched). -/
def BookingService.verifyOTP (store : List Booking) (otpCode : String) (now : Nat) :
    Except VerifyOTPErr (Booking × List Booking) :=
  match store.find? (otpMatches otpCode now) with
  | none => .error .invalidOrExpiredOTP
  | some b =>
    match b.useOTP now with
    | .ok b1 => .ok (b1, updateFirst (otpMatches otpCode now) (fun _ => b1) store)
    | .error _ => .error .verificationFailed

/-! ### Input validation used on the create-booking path -/

/-- The machine-code pattern M followed by exactly three digits, from the booking
schema and the service-level format check. -/
def matchesMachineCode (s : String) : Bool :=
  match s.toList with
  | 'M' :: ds => ds.length == 3 && ds.all (fun c => c.isDigit)
  | _ => false

/-- The Indian phone pattern of the booking and customer schemas: a digit 6..9
followed by nine digits. -/
def matchesPhone (s : String) : Bool :=
  match s.toList with
  | c :: ds =>
    (c == '6' || c == '7' || c == '8' || c == '9')
      && ds.length == 9 && ds.all (fun c => c.isDigit)
  | [] => false

/-- The vehicle-plate pattern of the booking and customer schemas: two uppercase
letters, one or two digits, one or two uppercase letters, four digits.  Because
the groups alternate character classes, the regex matches exactly when the
maximal runs have these lengths. -/
def matchesVehicleNumber (s : String) : Bool :=
  let cs := s.toList
  let r1 := cs.takeWhile (fun c => c.isUpper)
  let t1 := cs.dropWhile (fun c => c.isUpper)
  let r2 := t1.takeWhile (fun c => c.isDigit)
  let t2 := t1.dropWhile (fun c => c.isDigit)
  let r3 := t2.takeWhile (fun c => c.isUpper)
  let t3 := t2.dropWhile (fun c => c.isUpper)
  let r4 := t3.takeWhile (fun c => c.isDigit)
  let t4 := t3.dropWhile (fun c => c.isDigit)
  r1.length == 2 && (r2.length == 1 || r2.length == 2)
    && (r3.length == 1 || r3.length == 2) && r4.length == 4 && t4.isEmpty

/-- The mongoose validation run by booking.save(), restricted to the embedded
fields: among them, palletNumber carries min 1 and max 8 in the source schema. -/
def bookingSchemaValidate (b : Booking) : Bool :=
  decide (0 < b.customerName.length) && decide (b.customerName.length ≤ 100)
    && matchesPhone b.phoneNumber
    && matchesVehicleNumber b.vehicleNumber
    && matchesMachineCode b.machineNumber
    && decide (1 ≤ b.palletNumber) && decide (b.palletNumber ≤ 8)
    && b.otp.code.length == 6 && b.otp.code.toList.all (fun c => c.isDigit)
    && decide (b.notes.length ≤ 500)

/-! ## Customer model -/

/-- Customer status strings used by the source (active, inactive, blocked). -/
inductive CustomerStatus
  | active
  | inactive
  | blocked
deriving DecidableEq, Repr

/-- Membership types of the membership block. -/
inductive MembershipType
  | monthly
  | quarterly
  | yearly
  | premium
deriving DecidableEq, Repr

/-- The customer-level membership block.  Modelled from the spec: the copy of the
customer schema under src/models/Customer.js is an older revision without the pin,
vehicleTypes and issuedDate fields that the customer service reads and writes;
their shape follows spec §3.1 (Membership). -/
structure MembershipBlock where
  membershipNumber : Option String
  pin : Option String
  membershipType : Option MembershipType
  vehicleTypes : List VehicleType
  issuedDate : Option Nat
  expiryDate : Option Nat
  isActive : Bool
deriving DecidableEq, Repr

/-- The membership block of a customer that never had a membership. -/
def emptyMembership : MembershipBlock :=
  { membershipNumber := none, pin := none, membershipType := none,
    vehicleTypes := [], issuedDate := none, expiryDate := none, isActive := false }

/-- A vehicle entry embedded in a customer. -/
structure VehicleEntry where
  vehicleNumber : String
  vehicleType : VehicleType
  isActive : Bool
deriving DecidableEq, Repr

/-- The customer document fields used by the embedded operations. -/
structure Customer where
  id : String
  firstName : String
  lastName : String
  phoneNumber : String
  email : Option String
  vehicles : List VehicleEntry
  membership : MembershipBlock
  customerStatus : CustomerStatus
deriving DecidableEq, Repr

/-- The mongoose validation run by customer.save(), restricted to the embedded
fields: required bounded names, the phone pattern, and the plate pattern on every
embedded vehicle. -/
def customerSchemaValidate (c : Customer) : Bool :=
  decide (0 < c.firstName.length) && decide (c.firstName.length ≤ 100)
    && decide (0 < c.lastName.length) && decide (c.lastName.length ≤ 100)
    && matchesPhone c.phoneNumber
    && c.vehicles.all (fun v => matchesVehicleNumber v.vehicleNumber)

/-- The name split used by BookingService.createBooking: parts = trimmed name split
on single spaces, firstName = first part, lastName = the join of the rest or, when
that join is the empty string, the first part again. -/
def splitCustomerName (name : String) : String × String :=
  match jsSplitOnSpace (jsTrim name) with
  | [] => ("", "")
  | f :: rest =>
    let r := String.intercalate " " rest
    (f, if r.isEmpty then f else r)

/-! ## BookingService.createBooking -/

/-- The caller-supplied payload of createBooking. -/
structure CreateBookingInput where
  customerName : String
  phoneNumber : String
  vehicleNumber : String
  vehicleType : VehicleType
  machineNumber : String
  palletNumber : Nat
  email : Option String
  notes : Option String
  specialInstructions : Option String
deriving DecidableEq, Repr

/-- Errors surfaced by BookingService.createBooking.  The two validation errors at
save time come from the mongoose schemas; the earlier ones from the explicit
service checks. -/
inductive CreateBookingErr
  | siteIdRequired
  | customerNameRequired
  | customerValidationFailed
  | invalidMachineNumberFormat
  | invalidPalletNumber
  | bookingValidationFailed
deriving DecidableEq, Repr

/-- BookingService.validateMachinePallet: format checks only — the machine-code
pattern on the uppercased machine number, and palletNumber at least 1.  The
source deliberately checks no machine capacity and no pallet existence here. -/
def BookingService.validateMachinePallet (machineNumber : String)
    (palletNumber : Nat) : Except CreateBookingErr Unit :=
  if !(matchesMachineCode (jsToUpper machineNumber)) then
    .error .invalidMachineNumberFormat
  else if palletNumber < 1 then .error .invalidPalletNumber
  else .ok ()

/-- The last k decimal digits of a timestamp, as used by the booking-number
generator of the booking schema pre-save hook. -/
def lastDigits (k n : Nat) : String :=
  let s := toString n
  String.mk (s.data.drop (s.data.length - k))

/-- The world state threaded through the booking service. -/
structure Stores where
  customers : List Customer
  bookings : List Booking
  machines : List Machine
deriving DecidableEq, Repr

/-- The value returned by a successful createBooking, together with the updated
stores and the response metadata flags. -/
structure CreateBookingResult where
  booking : Booking
  stores : Stores
  isNewCustomer : Bool
  customerNameUpdated : Bool
deriving DecidableEq, Repr

/-- BookingService.createBooking.  In source order: require a site context;
require a non-blank customer name; resolve the customer by phone among active
customers (creating one with the vehicle attached, or overwriting the name with
the operator-provided one and attaching the vehicle when missing — each save runs
the customer schema validation); run the format-only machine/pallet check; build
the booking with a fresh 30-minute OTP and status active and save it (the
schema validation at this save enforces palletNumber between 1 and 8); then
attempt the pallet-occupancy side-effect, whose failure — including a missing
machine or pallet — is logged and swallowed, never failing the request.  The
customer statistics counters updated afterwards are outside the embedded
fragment. -/
def BookingService.createBooking (st : Stores) (input : CreateBookingInput)
    (createdBy : String) (siteId : Option String) (otpCode : String)
    (newCustomerId newBookingId : String) (now : Nat) :
    Except CreateBookingErr CreateBookingResult :=
  match siteId with
  | none => .error .siteIdRequired
  | some sid =>
    if (jsTrim input.customerName).isEmpty then .error .customerNameRequired
    else
      let found := st.customers.find? (fun c =>
        c.phoneNumber == input.phoneNumber && c.customerStatus == .active)
      let resolved : Except CreateBookingErr (Customer × List Customer × Bool × Bool) :=
        match found with
        | none =>
          let nm := splitCustomerName input.customerName
          let c : Customer :=
            { id := newCustomerId, firstName := nm.1, lastName := nm.2,
              phoneNumber := input.phoneNumber, email := input.email,
              vehicles := [{ vehicleNumber := jsToUpper input.vehicleNumber,
                             vehicleType := input.vehicleType, isActive := true }],
              membership := emptyMembership, customerStatus := .active }
          if customerSchemaValidate c then
            .ok (c, st.customers ++ [c], true, false)
          else .error .customerValidationFailed
        | some c =>
          let currentFullName := jsTrim (c.firstName ++ " " ++ c.lastName)
          let providedName := jsTrim input.customerName
          let nameUpdated := providedName != currentFullName
          let c1 :=
            if nameUpdated then
              let nm := splitCustomerName providedName
              { c with firstName := nm.1, lastName := nm.2 }
            else c
          let hasVehicle := c1.vehicles.any (fun v =>
            v.vehicleNumber == jsToUpper input.vehicleNumber && v.isActive)
          let c2 :=
            if hasVehicle then c1
            else { c1 with vehicles := c1.vehicles ++
              [{ vehicleNumber := jsToUpper input.vehicleNumber,
                 vehicleType := input.vehicleType, isActive := true }] }
          if nameUpdated || !hasVehicle then
            if customerSchemaValidate c2 then
              .ok (c2, updateFirst (fun x => x.id == c.id) (fun _ => c2) st.customers,
                   false, nameUpdated)
            else .error .customerValidationFailed
          else .ok (c2, st.customers, false, false)
      match resolved with
      | .error e => .error e
      | .ok (customer, customers1, isNew, nameUpdated) =>
        match BookingService.validateMachinePallet input.machineNumber input.palletNumber with
        | .error e => .error e
        | .ok _ =>
          let prefixTag := if input.vehicleType == .twoWheeler then "TW" else "FW"
          let b : Booking :=
            { id := newBookingId,
              bookingNumber := "BK" ++ prefixTag ++ lastDigits 8 now,
              siteId := sid,
              customer := customer.id,
              customerName := jsTrim (customer.firstName ++ " " ++ customer.lastName),
              phoneNumber := customer.phoneNumber,
              vehicleNumber := jsToUpper input.vehicleNumber,
              vehicleType := input.vehicleType,
              machineNumber := jsToUpper input.machineNumber,
              palletNumber := input.palletNumber,
              status := .active,
              startTime := now,
              endTime := none,
              otp := { code := otpCode, generatedAt := now,
                       expiresAt := now + 30 * 60 * 1000, isUsed := false, usedAt := none },
              payment := { amount := 0, payStatus := .pending },
              notes := (match input.notes with | some s => s | none => ""),
              specialInstructions :=
                (match input.specialInstructions with | some s => s | none => ""),
              createdBy := createdBy,
              updatedBy := none }
          if !(bookingSchemaValidate b) then .error .bookingValidationFailed
          else
            let machineFinder := fun (m : Machine) =>
              m.machineNumber == jsToUpper input.machineNumber && m.siteId == sid
            let machines1 :=
              match st.machines.find? machineFinder with
              | none => st.machines
              | some m =>
                match MachineService.occupyPallet (some m) (.num input.palletNumber)
                    b.id (jsToUpper input.vehicleNumber) none now with
                | .ok m1 => updateFirst machineFinder (fun _ => m1) st.machines
                | .error _ => st.machines
            .ok { booking := b,
                  stores := { customers := customers1,
                              bookings := st.bookings ++ [b],
                              machines := machines1 },
                  isNewCustomer := isNew,
                  customerNameUpdated := nameUpdated }

/-! ## BookingService.cancelBooking -/

/-- The instance methods defined on the booking schema in the source Booking
model: complete, cancel, useOTP and generateNewOTP.  There is no delete method,
and no mongoose plugin supplies one. -/
def bookingInstanceMethods : List String :=
  ["complete", "cancel", "useOTP", "generateNewOTP"]

/-- bookingSchema.methods.cancel: set the status to cancelled and, when a reason
is given, overwrite the notes with it. -/
def Booking.cancel (b : Booking) (reason : Option String) : Booking :=
  { b with status := .cancelled,
           notes := match reason with | some r => r | none => b.notes }

/-- Errors surfaced by BookingService.cancelBooking.  Non-AppError exceptions are
converted by its catch block into the internal failure message. -/
inductive CancelErr
  | bookingNotFound
  | cannotCancelCompleted
  | alreadyCancelled
  | internalFailure (msg : String)
deriving DecidableEq, Repr

/-- BookingService.cancelBooking.  After the not-found and terminal-status guards
(the comparison against BOOKING_STATUS.DELETED in the source compares with
undefined, since the constants object has no DELETED key, and so never fires) the
source calls booking.delete(reason).  The booking model defines no delete method
— its methods are bookingInstanceMethods — so that call raises a TypeError, which
the catch block surfaces as the internal failure; the branch below that would run
if the method existed (cancel, save, then one best-effort pallet release) is
therefore dead code.  The Bool in the result records whether a pallet-release
side-effect was attempted. -/
def BookingService.cancelBooking (st : Stores) (bookingId : String)
    (reason : Option String) (cancelledBy : String) :
    Except CancelErr (Booking × Stores × Bool) :=
  match st.bookings.find? (fun b => b.id == bookingId) with
  | none => .error .bookingNotFound
  | some b =>
    if b.status = .completed then .error .cannotCancelCompleted
    else if b.status = .cancelled then .error .alreadyCancelled
    else if bookingInstanceMethods.contains "delete" then
      let b1 := { b.cancel reason with updatedBy := some cancelledBy }
      let bookings1 := updateFirst (fun x => x.id == bookingId) (fun _ => b1) st.bookings
      let machineFinder := fun (m : Machine) =>
        m.machineNumber == b.machineNumber && m.siteId == b.siteId
      let machines1 :=
        match st.machines.find? machineFinder with
        | none => st.machines
        | some m =>
          match m.releaseVehicle (.num b.palletNumber) b.vehicleNumber with
          | .ok m1 => updateFirst machineFinder (fun _ => m1) st.machines
          | .error _ => st.machines
      .ok (b1, { st with bookings := bookings1, machines := machines1 }, true)
    else .error (.internalFailure "Failed to cancel booking")

/-! ## CustomerService.createCustomerMembership -/

/-- Errors surfaced on the membership-creation path. -/
inductive MembershipErr
  | customerNotFound
  | customerInactive
  | alreadyCovered
deriving DecidableEq, Repr

/-- A 30-day month over the abstract millisecond clock; only used for the fresh
expiry date, whose exact value no embedded claim inspects. -/
def monthMillis : Nat := 30 * 24 * 60 * 60 * 1000

/-- A membership block that is active and unexpired at the given time, per
spec §3.1 invariant M2. -/
def membershipActiveUnexpired (m : MembershipBlock) (now : Nat) : Bool :=
  m.isActive && (match m.expiryDate with | some e => decide (now < e) | none => false)

/-- Modelled from the spec: customerSchema.methods.createMembership is not present
under src (src/models/Customer.js is an older revision without it; the customer
service calls it).  Per spec §4.C.6: with an active, non-expired membership, a
requested coverage that is a subset of the existing coverage fails AlreadyCovered,
and otherwise the coverage set is extended in place, keeping the existing expiry
date, membership number and PIN; without one, a fresh number and PIN are issued
with issuedAt now and expiresAt now plus the term. -/
def Customer.createMembership (c : Customer) (mtype : MembershipType)
    (validityTerm : Nat) (vehicleTypes : List VehicleType) (now : Nat)
    (freshNumber freshPin : String) : Except MembershipErr Customer :=
  let m := c.membership
  if membershipActiveUnexpired m now then
    if vehicleTypes.all (fun v => m.vehicleTypes.contains v) then
      .error .alreadyCovered
    else
      .ok { c with membership :=
        { m with vehicleTypes :=
            m.vehicleTypes ++ vehicleTypes.filter (fun v => !(m.vehicleTypes.contains v)) } }
  else
    .ok { c with membership :=
      { membershipNumber := some freshNumber, pin := some freshPin,
        membershipType := some mtype, vehicleTypes := vehicleTypes,
        issuedDate := some now, expiryDate := some (now + validityTerm * monthMillis),
        isActive := true } }

/-- A row of the append-only MembershipPayment ledger, with the fields set by
CustomerService.createCustomerMembership. -/
structure MembershipPayment where
  customerId : String
  customerName : String
  customerPhone : String
  membershipNumber : Option String
  membershipType : MembershipType
  amount : Int
  paymentMethod : String
  startDate : Option Nat
  expiryDate : Option Nat
  validityTerm : Nat
  vehicleTypes : List VehicleType
  rowStatus : String
  createdBy : String
deriving DecidableEq, Repr

/-- The default membership prices of the service; the JS fallback of 500 for an
unknown type is unreachable over the closed enum. -/
def membershipPrices : MembershipType → Int
  | .monthly => 500
  | .quarterly => 1200
  | .yearly => 4000
  | .premium => 6000

/-- CustomerService.createCustomerMembership: resolve the customer, require it
active, delegate to the model method, then append exactly one completed
MembershipPayment ledger row whose amount is the caller-supplied one or, when that
is absent or 0 (JS falsiness), the price-table default. -/
def CustomerService.createCustomerMembership (customers : List Customer)
    (ledger : List MembershipPayment) (customerId : String) (mtype : MembershipType)
    (validityTerm : Nat) (createdBy : String) (vehicleTypes : List VehicleType)
    (payAmount : Option Int) (payMethod : Option String) (now : Nat)
    (freshNumber freshPin : String) :
    Except MembershipErr (List Customer × List MembershipPayment) :=
  match customers.find? (fun c => c.id == customerId) with
  | none => .error .customerNotFound
  | some c =>
    if c.customerStatus ≠ .active then .error .customerInactive
    else
      match c.createMembership mtype validityTerm vehicleTypes now freshNumber freshPin with
      | .error e => .error e
      | .ok c1 =>
        let amount :=
          match payAmount with
          | some a => if a == 0 then membershipPrices mtype else a
          | none => membershipPrices mtype
        let row : MembershipPayment :=
          { customerId := c1.id,
            customerName := c1.firstName ++ " " ++ c1.lastName,
            customerPhone := c1.phoneNumber,
            membershipNumber := c1.membership.membershipNumber,
            membershipType := mtype,
            amount := amount,
            paymentMethod := (match payMethod with | some s => s | none => "cash"),
            startDate := c1.membership.issuedDate,
            expiryDate := c1.membership.expiryDate,
            validityTerm := validityTerm,
            vehicleTypes := vehicleTypes,
            rowStatus := "completed",
            createdBy := createdBy }
        .ok (updateFirst (fun x => x.id == customerId) (fun _ => c1) customers,
             ledger ++ [row])

/-! ## SiteService.deleteSitePermanently -/

/-- The user-document fields touched by site deletion.  Modelled from the spec:
the assignedSites and primarySite fields are not in the src copy of the user
schema (an older revision); their shape follows spec §3.1 (User), with only the
site references retained. -/
structure UserDoc where
  id : String
  assignedSites : List String
  primarySite : Option String
deriving DecidableEq, Repr

/-- The world state of the site service. -/
structure SiteStores where
  sites : List String
  machines : List Machine
  bookings : List Booking
  users : List UserDoc
deriving DecidableEq, Repr

/-- Errors surfaced by SiteService.deleteSitePermanently. -/
inductive DeleteSiteErr
  | siteNotFound
  | hasBookingRecords
  | hasActiveBookings
  | hasMachines
deriving DecidableEq, Repr

/-- The User.updateMany update of site deletion: every user whose assignedSites
contains the deleted site has the entry pulled and primarySite unset —
unconditionally, whatever primarySite named; a user not assigned to the site is
untouched even when primarySite names it. -/
def siteUserUpdate (siteId : String) (u : UserDoc) : UserDoc :=
  if u.assignedSites.contains siteId then
    { u with assignedSites := u.assignedSites.filter (fun s => s != siteId),
             primarySite := none }
  else u

/-- SiteService.deleteSitePermanently: reject a missing site; without force,
reject when the site has any booking records, any active bookings, or any
machines; with force, delete those machines and bookings; in either case run the
user update above and remove the site. -/
def SiteService.deleteSitePermanently (st : SiteStores) (siteId : String)
    (force : Bool) : Except DeleteSiteErr SiteStores :=
  if !(st.sites.contains siteId) then .error .siteNotFound
  else
    let totalBookings := (st.bookings.filter (fun b => b.siteId == siteId)).length
    if totalBookings > 0 ∧ force = false then .error .hasBookingRecords
    else
      let activeBookings := (st.bookings.filter (fun b =>
        b.siteId == siteId && b.status == .active)).length
      if activeBookings > 0 ∧ force = false then .error .hasActiveBookings
      else
        let machineCount := (st.machines.filter (fun m => m.siteId == siteId)).length
        if machineCount > 0 ∧ force = false then .error .hasMachines
        else
          let machines1 :=
            if machineCount > 0 ∧ force = true then
              st.machines.filter (fun m => m.siteId != siteId)
            else st.machines
          let bookings1 :=
            if totalBookings > 0 ∧ force = true then
              st.bookings.filter (fun b => b.siteId != siteId)
            else st.bookings
          .ok { sites := st.sites.filter (fun s => s != siteId),
                machines := machines1,
                bookings := bookings1,
                users := st.users.map (siteUserUpdate siteId) }

/-! ## Pallet invariants -/

/-- The per-pallet invariant exactly as claim C1 lists it: occupancy equals the
occupant-list length, pairwise-distinct positions, occupancy between 0 and the
capacity, a full occupancy exactly on status occupied, and a non-full occupancy on
status available. -/
def PalletInvClaimed (p : Pallet) : Prop :=
  p.currentOccupancy = (p.currentBookings.length : Int)
  ∧ (p.currentBookings.map (fun b => b.position)).Nodup
  ∧ 0 ≤ p.currentOccupancy ∧ p.currentOccupancy ≤ p.vehicleCapacity
  ∧ (p.status = .occupied → p.currentOccupancy = p.vehicleCapacity)
  ∧ (p.status = .available → p.currentOccupancy < p.vehicleCapacity)

instance (p : Pallet) : Decidable (PalletInvClaimed p) := by
  unfold PalletInvClaimed; infer_instance

/-- Claim C1 quantified over the pallets of a machine. -/
def MachineInvClaimed (m : Machine) : Prop := ∀ p ∈ m.pallets, PalletInvClaimed p

instance (m : Machine) : Decidable (MachineInvClaimed m) := by
  unfold MachineInvClaimed; exact List.decidableBAll _ _

/-- The invariant the code actually preserves: the first three bullets of the
claim, the available-implies-spare bullet, and capacity 1 on four-wheeler
machines; the occupied-implies-full bullet is dropped — a release from a full
multi-vehicle pallet leaves the status occupied with a non-full occupancy. -/
def PalletInvAmended (mt : VehicleType) (p : Pallet) : Prop :=
  p.currentOccupancy = (p.currentBookings.length : Int)
  ∧ (p.currentBookings.map (fun b => b.position)).Nodup
  ∧ 0 ≤ p.currentOccupancy ∧ p.currentOccupancy ≤ p.vehicleCapacity
  ∧ (p.status = .available → p.currentOccupancy < p.vehicleCapacity)
  ∧ (mt = .fourWheeler → p.vehicleCapacity = 1)

instance (mt : VehicleType) (p : Pallet) : Decidable (PalletInvAmended mt p) := by
  unfold PalletInvAmended; infer_instance

/-- The amended invariant over a machine. -/
def MachineInvAmended (m : Machine) : Prop :=
  ∀ p ∈ m.pallets, PalletInvAmended m.machineType p

instance (m : Machine) : Decidable (MachineInvAmended m) := by
  unfold MachineInvAmended; exact List.decidableBAll _ _

/-! ## List helper lemmas -/

theorem mem_updateFirst {α : Type} {q : α → Bool} {f : α → α} {l : List α} {x : α}
    (hx : x ∈ updateFirst q f l) : x ∈ l ∨ ∃ a, a ∈ l ∧ q a = true ∧ x = f a := by
  induction l with
  | nil => simp [updateFirst] at hx
  | cons a as ih =>
    by_cases h : q a
    · simp only [updateFirst, if_pos h, List.mem_cons] at hx
      rcases hx with h1 | h1
      · exact .inr ⟨a, by simp, h, h1⟩
      · exact .inl (by simp [h1])
    · simp only [updateFirst, if_neg h, List.mem_cons] at hx
      rcases hx with h1 | h1
      · exact .inl (by simp [h1])
      · rcases ih h1 with h2 | ⟨b, hb, hqb, hxb⟩
        · exact .inl (by simp [h2])
        · exact .inr ⟨b, by simp [hb], hqb, hxb⟩

theorem find?_updateFirst {α : Type} {q : α → Bool} {f : α → α} (l : List α)
    (hf : ∀ a, q a = true → q (f a) = true) :
    (updateFirst q f l).find? q = (l.find? q).map f := by
  induction l with
  | nil => simp [updateFirst]
  | cons a as ih =>
    by_cases h : q a
    · simp [updateFirst, h, List.find?_cons_of_pos, hf a h]
    · simp [updateFirst, h, List.find?_cons_of_neg, ih]

theorem nodup_append_singleton {α : Type} {l : List α} {a : α}
    (h : l.Nodup) (ha : a ∉ l) : (l ++ [a]).Nodup := by
  simp [List.nodup_append, h, ha]

/-! ## Per-pallet preservation lemmas -/

theorem occupyResult_inv {mt : VehicleType} {p : Pallet} {bid veh : String}
    {pos : Option Nat} {now : Nat}
    (hp : PalletInvAmended mt p)
    (hlt : ¬ p.currentOccupancy ≥ p.vehicleCapacity)
    (hfree : ∀ b ∈ p.currentBookings, ¬ b.position = pos) :
    PalletInvAmended mt
      { p with
        currentBookings := p.currentBookings ++
          [{ booking := bid, vehicleNumber := jsToUpper veh,
             occupiedSince := now, position := pos }]
        currentOccupancy := p.currentOccupancy + 1
        status := if p.currentOccupancy + 1 ≥ p.vehicleCapacity then .occupied else p.status
        occupiedSince :=
          if p.currentOccupancy + 1 == 1 then some now else p.occupiedSince } := by
  obtain ⟨h1, h2, h3, h4, h5, h6⟩ := hp
  refine ⟨?_, ?_, ?_, ?_, ?_, ?_⟩
  · simp only [List.length_append, List.length_cons, List.length_nil]
    push_cast
    omega
  · simp only [List.map_append, List.map_cons, List.map_nil]
    refine nodup_append_singleton h2 ?_
    simp only [List.mem_map]
    rintro ⟨b, hb, hbp⟩
    exact hfree b hb hbp
  · simpa using by omega
  · simpa using by omega
  · intro hs
    by_cases hcap : p.currentOccupancy + 1 ≥ p.vehicleCapacity
    · simp only [if_pos hcap] at hs
      cases hs
    · simpa using by omega
  · intro hmt
    simpa using h6 hmt

theorem releaseUpdate_inv {mt : VehicleType} {p : Pallet} {pred : BookingEntry → Bool}
    (hp : PalletInvAmended mt p)
    (hmem : p.currentBookings.any pred = true) :
    PalletInvAmended mt (releaseUpdate p pred) := by
  obtain ⟨h1, h2, h3, h4, h5, h6⟩ := hp
  obtain ⟨b, hb, hpb⟩ := List.any_eq_true.mp hmem
  have hlen : (p.currentBookings.eraseP pred).length = p.currentBookings.length - 1 :=
    List.length_eraseP_of_mem hb hpb
  have hlen1 : 1 ≤ p.currentBookings.length := List.length_pos_of_mem hb
  have hocc1 : 1 ≤ p.currentOccupancy := by omega
  unfold releaseUpdate PalletInvAmended
  dsimp only
  refine ⟨?_, ?_, ?_, ?_, ?_, ?_⟩
  · simp only [hlen]
    push_cast [hlen1]
    omega
  · exact List.Nodup.sublist
      (List.Sublist.map (fun b : BookingEntry => b.position) (List.eraseP_sublist _)) h2
  · omega
  · omega
  · intro hs
    split at hs
    · rename_i hz
      simp only [beq_iff_eq] at hz
      omega
    · have := h5 hs
      omega
  · intro hmt
    exact h6 hmt

theorem setMaintenanceUpdate_inv {mt : VehicleType} {p : Pallet} {notes : String}
    {now : Nat} (hp : PalletInvAmended mt p) :
    PalletInvAmended mt
      { p with status := .maintenance, maintenanceNotes := notes,
               lastMaintenance := some now } := by
  obtain ⟨h1, h2, h3, h4, h5, h6⟩ := hp
  exact ⟨h1, h2, h3, h4, by intro hs; simp at hs, h6⟩

theorem occupyPalletUpdate_inv {mt : VehicleType} {p p1 : Pallet} {bid veh : String}
    {pos : Option Nat} {now : Nat}
    (hp : PalletInvAmended mt p)
    (h : occupyPalletUpdate mt p bid veh pos now = .ok p1) :
    PalletInvAmended mt p1 := by
  unfold occupyPalletUpdate at h
  by_cases hge : p.currentOccupancy ≥ p.vehicleCapacity
  · rw [if_pos hge] at h
    cases h
  · rw [if_neg hge] at h
    cases mt with
    | fourWheeler =>
      dsimp only at h
      simp only [Except.map, Except.ok.injEq] at h
      subst h
      obtain ⟨h1, h2, h3, h4, h5, h6⟩ := hp
      have hcap := h6 rfl
      have hnil : p.currentBookings = [] := by
        rw [← List.length_eq_zero]
        omega
      refine occupyResult_inv ⟨h1, h2, h3, h4, h5, h6⟩ hge ?_
      intro b hb
      rw [hnil] at hb
      simp at hb
    | twoWheeler =>
      dsimp only at h
      by_cases hany : (p.currentBookings.any (fun b =>
          b.position == (if positionFalsy pos then
            match nextFreePosition p.currentBookings with
            | some i => some i
            | none => pos
          else pos))) = true
      · rw [if_pos hany] at h
        cases h
      · rw [if_neg hany] at h
        simp only [Except.map, Except.ok.injEq] at h
        subst h
        refine occupyResult_inv hp hge ?_
        intro b hb hbp
        refine hany ?_
        rw [List.any_eq_true]
        exact ⟨b, hb, by rw [hbp]; simp⟩

/-! ## Machine-level preservation -/

theorem preSaveRecompute_pallets (m : Machine) :
    (preSaveRecompute m).pallets = m.pallets := by
  unfold preSaveRecompute
  split <;> rfl

theorem preSaveRecompute_machineType (m : Machine) :
    (preSaveRecompute m).machineType = m.machineType := by
  unfold preSaveRecompute
  split <;> rfl

theorem preSaveRecompute_inv {m : Machine} (hm : MachineInvAmended m) :
    MachineInvAmended (preSaveRecompute m) := by
  intro p hp
  rw [preSaveRecompute_pallets] at hp
  rw [preSaveRecompute_machineType]
  exact hm p hp

theorem machineUpdate_inv {m : Machine} {q : Pallet → Bool} {f : Pallet → Pallet}
    (hm : MachineInvAmended m)
    (hf : ∀ a ∈ m.pallets, q a = true → PalletInvAmended m.machineType (f a)) :
    MachineInvAmended (preSaveRecompute { m with pallets := updateFirst q f m.pallets }) := by
  apply preSaveRecompute_inv
  intro x hx
  rcases mem_updateFirst hx with hmem | ⟨a, ha, hqa, rfl⟩
  · exact hm x hmem
  · exact hf a ha hqa

theorem occupyPallet_preserves_inv {m m1 : Machine} {k : PalletKey} {bid veh : String}
    {pos : Option Nat} {now : Nat}
    (hm : MachineInvAmended m)
    (h : m.occupyPallet k bid veh pos now = .ok m1) : MachineInvAmended m1 := by
  unfold Machine.occupyPallet at h
  cases hfind : m.pallets.find? (fun p => palletMatches p k) with
  | none =>
    rw [hfind] at h
    cases h
  | some p =>
    rw [hfind] at h
    dsimp only at h
    cases hu : occupyPalletUpdate m.machineType p bid veh pos now with
    | error e =>
      rw [hu] at h
      cases h
    | ok p1 =>
      rw [hu] at h
      simp only [Except.map, Except.ok.injEq] at h
      subst h
      exact machineUpdate_inv hm (fun a _ _ =>
        occupyPalletUpdate_inv (hm p (List.mem_of_find?_eq_some hfind)) hu)

theorem releasePallet_preserves_inv {m m1 : Machine} {k : PalletKey} {bid : String}
    (hm : MachineInvAmended m)
    (h : m.releasePallet k bid = .ok m1) : MachineInvAmended m1 := by
  unfold Machine.releasePallet at h
  cases hfind : m.pallets.find? (fun p => palletMatches p k) with
  | none =>
    rw [hfind] at h
    cases h
  | some p =>
    rw [hfind] at h
    dsimp only at h
    by_cases hany : (p.currentBookings.any (fun b => b.booking == bid)) = true
    · rw [if_pos hany] at h
      simp only [Except.ok.injEq] at h
      subst h
      exact machineUpdate_inv hm (fun a _ _ =>
        releaseUpdate_inv (hm p (List.mem_of_find?_eq_some hfind)) hany)
    · rw [if_neg hany] at h
      cases h

theorem releaseVehicle_preserves_inv {m m1 : Machine} {k : PalletKey} {veh : String}
    (hm : MachineInvAmended m)
    (h : m.releaseVehicle k veh = .ok m1) : MachineInvAmended m1 := by
  unfold Machine.releaseVehicle at h
  cases hfind : m.pallets.find? (fun p => palletMatches p k) with
  | none =>
    rw [hfind] at h
    cases h
  | some p =>
    rw [hfind] at h
    dsimp only at h
    by_cases hany : (p.currentBookings.any (fun b => b.vehicleNumber == jsToUpper veh)) = true
    · rw [if_pos hany] at h
      simp only [Except.ok.injEq] at h
      subst h
      exact machineUpdate_inv hm (fun a _ _ =>
        releaseUpdate_inv (hm p (List.mem_of_find?_eq_some hfind)) hany)
    · rw [if_neg hany] at h
      cases h

theorem setPalletMaintenance_preserves_inv {m m1 : Machine} {n : Nat}
    {notes : String} {now : Nat}
    (hm : MachineInvAmended m)
    (h : m.setPalletMaintenance n notes now = .ok m1) : MachineInvAmended m1 := by
  unfold Machine.setPalletMaintenance at h
  cases hfind : m.pallets.find? (fun p => p.number == n) with
  | none =>
    rw [hfind] at h
    cases h
  | some p =>
    rw [hfind] at h
    dsimp only at h
    simp only [Except.ok.injEq] at h
    subst h
    exact machineUpdate_inv hm (fun a ha _ => setMaintenanceUpdate_inv (hm a ha))

/-! ## Concrete sample states -/

/-- A booking entry at a concrete position. -/
def entryAt (bid veh : String) (pos : Nat) : BookingEntry :=
  { booking := bid, vehicleNumber := veh, occupiedSince := 0, position := some pos }

/-- A machine builder for the sample states; the aggregate counters start at
arbitrary values since every pallet operation recomputes them on save. -/
def mkMachine (mt : VehicleType) (st : MachineStatus) (ps : List Pallet) : Machine :=
  { machineNumber := "M001", siteId := "SITE1", machineType := mt,
    parkingType := .rotary, status := st, pallets := ps,
    capacityTotal := 8, capacityAvailable := 0, capacityOccupied := 0,
    capacityMaintenance := 0 }

/-- An empty six-slot pallet. -/
def emptyPallet6 : Pallet :=
  { number := 1, customName := "1", status := .available, vehicleCapacity := 6,
    currentOccupancy := 0, currentBookings := [], occupiedSince := none,
    maintenanceNotes := "", lastMaintenance := none }

/-- The full six-slot pallet reached by the fill scenario of spec §8. -/
def fullPallet6 : Pallet :=
  { number := 1, customName := "1", status := .occupied, vehicleCapacity := 6,
    currentOccupancy := 6,
    currentBookings :=
      [entryAt "B1" "KA01AB1001" 1, entryAt "B2" "KA01AB1002" 2,
       entryAt "B3" "KA01AB1003" 3, entryAt "B4" "KA01AB1004" 4,
       entryAt "B5" "KA01AB1005" 5, entryAt "B6" "KA01AB1006" 6],
    occupiedSince := some 0, maintenanceNotes := "", lastMaintenance := none }

/-- The online two-wheeler machine holding the full pallet. -/
def sampleFullTW : Machine := mkMachine .twoWheeler .online [fullPallet6]

/-- The online two-wheeler machine holding the empty pallet. -/
def sampleEmptyTW : Machine := mkMachine .twoWheeler .online [emptyPallet6]

/-- A four-wheeler machine in the ill-formed state where a pallet has capacity 2:
one occupant at position 1 and one spare slot. -/
def sampleFW2 : Machine :=
  mkMachine .fourWheeler .online
    [{ number := 1, customName := "1", status := .available, vehicleCapacity := 2,
       currentOccupancy := 1, currentBookings := [entryAt "B10" "KA05MH1234" 1],
       occupiedSince := some 0, maintenanceNotes := "", lastMaintenance := none }]

/-- Pick the machine of a successful result, or a default machine. -/
def okMachineOr (d : Machine) : Except MachineOpErr Machine → Machine
  | .ok m => m
  | .error _ => d

/-- The machine state after releasing booking B3 from the full pallet. -/
def sampleReleased : Machine :=
  okMachineOr sampleFullTW (sampleFullTW.releasePallet (.num 1) "B3")

/-- The machine state after the occupy that duplicates position 1 on the
ill-formed four-wheeler machine. -/
def sampleFW2Occupied : Machine :=
  okMachineOr sampleFW2 (sampleFW2.occupyPallet (.num 1) "B11" "KA05MH5678" none 7)

/-- The machine state after one occupy on the empty two-wheeler pallet. -/
def sampleOccupied1 : Machine :=
  okMachineOr sampleEmptyTW (sampleEmptyTW.occupyPallet (.num 1) "B1" "KA01AB1001" none 5)

/-! ## Claim C1 -/

/-- C1, counterexample: the claimed invariant bundle is not preserved.  First,
releasing B3 from a full six-slot pallet succeeds but leaves the pallet status
occupied with occupancy 5, violating the bullet status occupied implies occupancy
equals capacity.  Second, on a four-wheeler machine whose pallet has spare
capacity 2, occupying duplicates position 1, violating the distinct-positions
bullet; both start states satisfy every bullet of the claimed invariant. -/
theorem pallet_engine_invariants_cex :
    MachineInvClaimed sampleFullTW
  ∧ sampleFullTW.releasePallet (.num 1) "B3" = .ok sampleReleased
  ∧ ¬ MachineInvClaimed sampleReleased
  ∧ MachineInvClaimed sampleFW2
  ∧ sampleFW2.occupyPallet (.num 1) "B11" "KA05MH5678" none 7 = .ok sampleFW2Occupied
  ∧ ¬ MachineInvClaimed sampleFW2Occupied := by
  decide

/-- C1, amended: every completed pallet-engine operation — occupyPallet,
releasePallet, releaseVehicle, setPalletMaintenance, and the recompute run on
machine save — preserves the invariant bundle consisting of: occupancy equals the
length of currentBookings; pairwise-distinct positions; 0 ≤ occupancy ≤ capacity;
status available implies occupancy < capacity; and capacity 1 on four-wheeler
machines.  The claimed bullet that status occupied forces occupancy = capacity is
not preserved by the releases and is dropped. -/
theorem pallet_engine_invariants_preserved :
    (∀ (m : Machine) (k : PalletKey) (bid veh : String) (pos : Option Nat)
       (now : Nat) (m1 : Machine), MachineInvAmended m →
       m.occupyPallet k bid veh pos now = .ok m1 → MachineInvAmended m1)
  ∧ (∀ (m : Machine) (k : PalletKey) (bid : String) (m1 : Machine),
       MachineInvAmended m → m.releasePallet k bid = .ok m1 → MachineInvAmended m1)
  ∧ (∀ (m : Machine) (k : PalletKey) (veh : String) (m1 : Machine),
       MachineInvAmended m → m.releaseVehicle k veh = .ok m1 → MachineInvAmended m1)
  ∧ (∀ (m : Machine) (n : Nat) (notes : String) (now : Nat) (m1 : Machine),
       MachineInvAmended m → m.setPalletMaintenance n notes now = .ok m1 →
       MachineInvAmended m1)
  ∧ (∀ m : Machine, MachineInvAmended m → MachineInvAmended (preSaveRecompute m)) :=
  ⟨fun _ _ _ _ _ _ _ hm h => occupyPallet_preserves_inv hm h,
   fun _ _ _ _ hm h => releasePallet_preserves_inv hm h,
   fun _ _ _ _ hm h => releaseVehicle_preserves_inv hm h,
   fun _ _ _ _ _ hm h => setPalletMaintenance_preserves_inv hm h,
   fun _ hm => preSaveRecompute_inv hm⟩

/-- C1, witness: the preservation theorem applied to a concrete occupy on the
empty two-wheeler pallet. -/
theorem pallet_engine_invariants_witness : MachineInvAmended sampleOccupied1 :=
  pallet_engine_invariants_preserved.1 sampleEmptyTW (.num 1) "B1" "KA01AB1001"
    none 5 sampleOccupied1 (by decide) (by decide)

/-! ## Claim C3 -/

/-- C3, counterexample: releasing B3 from the full six-slot pallet (status
occupied) succeeds with new occupancy 5 > 0, yet the status stays occupied — the
claimed transition occupied to available on a partial release does not happen. -/
theorem release_effects_cex :
    sampleFullTW.releasePallet (.num 1) "B3" = .ok sampleReleased
  ∧ (sampleFullTW.pallets.map fun p => p.status) = [.occupied]
  ∧ (sampleReleased.pallets.map fun p => (p.currentOccupancy, p.status))
      = [(5, .occupied)] := by
  decide

/-- C3, amended: ReleasePalletByBooking finds the occupant by bookingId string
equality and ReleaseVehicle by uppercase plate match; both remove that entry from
the matched pallet and apply the same update: the new occupancy is
max(0, old − 1); when it is 0 the status becomes available and occupiedSince is
cleared to null; when it is greater than 0 the status and occupiedSince are left
unchanged — in particular a pallet that was occupied stays occupied. -/
theorem release_effects :
    (∀ (m : Machine) (k : PalletKey) (bid : String) (m1 : Machine),
      m.releasePallet k bid = .ok m1 →
      ∃ p, m.pallets.find? (fun q => palletMatches q k) = some p ∧
        (p.currentBookings.any (fun b => b.booking == bid)) = true ∧
        m1 = preSaveRecompute (withPallets m
          (updateFirst (fun q => palletMatches q k)
            (fun _ => releaseUpdate p (fun b => b.booking == bid)) m.pallets)))
  ∧ (∀ (m : Machine) (k : PalletKey) (veh : String) (m1 : Machine),
      m.releaseVehicle k veh = .ok m1 →
      ∃ p, m.pallets.find? (fun q => palletMatches q k) = some p ∧
        (p.currentBookings.any (fun b => b.vehicleNumber == jsToUpper veh)) = true ∧
        m1 = preSaveRecompute (withPallets m
          (updateFirst (fun q => palletMatches q k)
            (fun _ => releaseUpdate p (fun b => b.vehicleNumber == jsToUpper veh)) m.pallets)))
  ∧ (∀ (p : Pallet) (pred : BookingEntry → Bool),
      (releaseUpdate p pred).currentOccupancy = max 0 (p.currentOccupancy - 1)
      ∧ (releaseUpdate p pred).currentBookings = p.currentBookings.eraseP pred
      ∧ ((releaseUpdate p pred).currentOccupancy = 0 →
          (releaseUpdate p pred).status = .available
          ∧ (releaseUpdate p pred).occupiedSince = none)
      ∧ ((releaseUpdate p pred).currentOccupancy ≠ 0 →
          (releaseUpdate p pred).status = p.status
          ∧ (releaseUpdate p pred).occupiedSince = p.occupiedSince)) := by
  refine ⟨?_, ?_, ?_⟩
  · intro m k bid m1 h
    unfold Machine.releasePallet at h
    cases hfind : m.pallets.find? (fun p => palletMatches p k) with
    | none =>
      rw [hfind] at h
      cases h
    | some p =>
      rw [hfind] at h
      dsimp only at h
      by_cases hany : (p.currentBookings.any (fun b => b.booking == bid)) = true
      · rw [if_pos hany] at h
        simp only [Except.ok.injEq] at h
        exact ⟨p, rfl, hany, h.symm⟩
      · rw [if_neg hany] at h
        cases h
  · intro m k veh m1 h
    unfold Machine.releaseVehicle at h
    cases hfind : m.pallets.find? (fun p => palletMatches p k) with
    | none =>
      rw [hfind] at h
      cases h
    | some p =>
      rw [hfind] at h
      dsimp only at h
      by_cases hany : (p.currentBookings.any (fun b => b.vehicleNumber == jsToUpper veh)) = true
      · rw [if_pos hany] at h
        simp only [Except.ok.injEq] at h
        exact ⟨p, rfl, hany, h.symm⟩
      · rw [if_neg hany] at h
        cases h
  · intro p pred
    refine ⟨rfl, rfl, ?_, ?_⟩
    · intro h0
      have hz : max 0 (p.currentOccupancy - 1) = 0 := h0
      constructor
      · show (if (max 0 (p.currentOccupancy - 1) == 0) = true
            then PalletStatus.available else p.status) = .available
        rw [if_pos (by simp [hz])]
      · show (if (max 0 (p.currentOccupancy - 1) == 0) = true
            then (none : Option Nat) else p.occupiedSince) = none
        rw [if_pos (by simp [hz])]
    · intro h0
      have hz : ¬ max 0 (p.currentOccupancy - 1) = 0 := h0
      constructor
      · show (if (max 0 (p.currentOccupancy - 1) == 0) = true
            then PalletStatus.available else p.status) = p.status
        rw [if_neg (by simp [hz])]
      · show (if (max 0 (p.currentOccupancy - 1) == 0) = true
            then (none : Option Nat) else p.occupiedSince) = p.occupiedSince
        rw [if_neg (by simp [hz])]

/-- C3, witness: the release-effects theorem applied to the concrete release of
B3 from the full pallet. -/
theorem release_effects_witness :
    ∃ p, sampleFullTW.pallets.find? (fun q => palletMatches q (.num 1)) = some p ∧
      (p.currentBookings.any (fun b => b.booking == "B3")) = true ∧
      sampleReleased = preSaveRecompute (withPallets sampleFullTW
        (updateFirst (fun q => palletMatches q (.num 1))
          (fun _ => releaseUpdate p (fun b => b.booking == "B3")) sampleFullTW.pallets)) :=
  release_effects.1 sampleFullTW (.num 1) "B3" sampleReleased (by decide)

/-! ## Claim C10 -/

/-- C10: for both releases, a missing pallet and a missing occupant entry yield
errors — thrown before any mutation in the source — and on the success path the
occupancy is clamped to max(0, old − 1), hence never negative, whatever the
stored counter held. -/
theorem release_safety :
    (∀ (m : Machine) (k : PalletKey) (bid : String),
      m.pallets.find? (fun q => palletMatches q k) = none →
      m.releasePallet k bid = .error (.palletNotFound k))
  ∧ (∀ (m : Machine) (k : PalletKey) (bid : String) (p : Pallet),
      m.pallets.find? (fun q => palletMatches q k) = some p →
      (p.currentBookings.any (fun b => b.booking == bid)) = false →
      m.releasePallet k bid = .error .bookingNotFoundOnPallet)
  ∧ (∀ (m : Machine) (k : PalletKey) (veh : String),
      m.pallets.find? (fun q => palletMatches q k) = none →
      m.releaseVehicle k veh = .error (.palletNotFound k))
  ∧ (∀ (m : Machine) (k : PalletKey) (veh : String) (p : Pallet),
      m.pallets.find? (fun q => palletMatches q k) = some p →
      (p.currentBookings.any (fun b => b.vehicleNumber == jsToUpper veh)) = false →
      m.releaseVehicle k veh = .error .vehicleNotFoundOnPallet)
  ∧ (∀ (p : Pallet) (pred : BookingEntry → Bool),
      0 ≤ (releaseUpdate p pred).currentOccupancy
      ∧ (releaseUpdate p pred).currentOccupancy = max 0 (p.currentOccupancy - 1)) := by
  refine ⟨?_, ?_, ?_, ?_, ?_⟩
  · intro m k bid hfind
    unfold Machine.releasePallet
    rw [hfind]
  · intro m k bid p hfind hany
    unfold Machine.releasePallet
    rw [hfind]
    dsimp only
    rw [if_neg (by simp [hany])]
  · intro m k veh hfind
    unfold Machine.releaseVehicle
    rw [hfind]
  · intro m k veh p hfind hany
    unfold Machine.releaseVehicle
    rw [hfind]
    dsimp only
    rw [if_neg (by simp [hany])]
  · intro p pred
    exact ⟨le_max_left 0 _, rfl⟩

/-- C10, witness: the error cases and the clamp at concrete states — a missing
pallet key, a missing booking, and a release on a pallet whose stored counter 0
disagrees with its one-element occupant list, where the clamp keeps the
occupancy at 0. -/
theorem release_safety_witness :
    sampleFullTW.releasePallet (.num 99) "B1" = .error (.palletNotFound (.num 99))
  ∧ sampleFullTW.releasePallet (.num 1) "B42" = .error .bookingNotFoundOnPallet
  ∧ sampleFullTW.releaseVehicle (.num 99) "KA01AB1001" = .error (.palletNotFound (.num 99))
  ∧ 0 ≤ (releaseUpdate
      { fullPallet6 with currentOccupancy := 0 }
      (fun b => b.booking == "B1")).currentOccupancy := by
  refine ⟨?_, ?_, ?_, ?_⟩
  · exact release_safety.1 sampleFullTW (.num 99) "B1" (by decide)
  · exact release_safety.2.1 sampleFullTW (.num 1) "B42" fullPallet6 (by decide) (by decide)
  · exact release_safety.2.2.1 sampleFullTW (.num 99) "KA01AB1001" (by decide)
  · exact (release_safety.2.2.2.2
      { fullPallet6 with currentOccupancy := 0 } (fun b => b.booking == "B1")).1

/-! ## Claim C4 -/

/-- Specification-side description of the auto-assignment: i lies in 1..6, is not
occupied on the pallet, and every smaller slot in 1..6 is occupied. -/
def IsLowestFree (entries : List BookingEntry) (i : Nat) : Prop :=
  1 ≤ i ∧ i ≤ 6
  ∧ (entries.any (fun b => b.position == some i)) = false
  ∧ ∀ j, 1 ≤ j → j < i → (entries.any (fun b => b.position == some j)) = true

theorem find?_range'_spec {P : Nat → Bool} : ∀ {n a i : Nat},
    (List.range' a n).find? P = some i →
    P i = true ∧ a ≤ i ∧ i < a + n ∧ ∀ j, a ≤ j → j < i → P j = false := by
  intro n
  induction n with
  | zero =>
    intro a i h
    simp at h
  | succ n ih =>
    intro a i h
    rw [List.range'_succ] at h
    by_cases hPa : P a = true
    · rw [List.find?_cons_of_pos _ hPa] at h
      injection h with h
      subst h
      exact ⟨hPa, Nat.le_refl _, by omega, fun j hj1 hj2 => absurd hj2 (by omega)⟩
    · rw [List.find?_cons_of_neg _ hPa] at h
      obtain ⟨h1, h2, h3, h4⟩ := ih h
      refine ⟨h1, by omega, by omega, ?_⟩
      intro j hj1 hj2
      by_cases hja : j = a
      · subst hja
        cases hb : P j
        · rfl
        · exact absurd hb hPa
      · exact h4 j (by omega) hj2

theorem nextFreePosition_lowest {entries : List BookingEntry} {i : Nat}
    (h : nextFreePosition entries = some i) : IsLowestFree entries i := by
  unfold nextFreePosition at h
  obtain ⟨h1, h2, h3, h4⟩ := find?_range'_spec h
  refine ⟨h2, by omega, ?_, ?_⟩
  · simpa using h1
  · intro j hj1 hj2
    simpa using h4 j hj1 hj2

/-- The machine state after occupying B7 with no position hint on the pallet that
B3 was released from. -/
def sampleAfterB7 : Machine :=
  okMachineOr sampleReleased (sampleReleased.occupyPallet (.num 1) "B7" "KA01AB1007" none 9)

/-- C4: on a four-wheeler machine the assigned position is always 1, overriding
any caller-supplied position; on a two-wheeler machine a caller-supplied occupied
position fails with PositionTaken; with no caller position the lowest free slot in
1..6 is chosen; and concretely, after releasing the occupant at position 3 of a
full six-capacity pallet, the next occupy without a hint is assigned position 3. -/
theorem occupy_position_assignment :
    (∀ (p : Pallet) (bid veh : String) (pos : Option Nat) (now : Nat) (p1 : Pallet),
      occupyPalletUpdate .fourWheeler p bid veh pos now = .ok p1 →
      p1.currentBookings = p.currentBookings ++
        [{ booking := bid, vehicleNumber := jsToUpper veh,
           occupiedSince := now, position := some 1 }])
  ∧ (∀ (m : Machine) (k : PalletKey) (bid veh : String) (j now : Nat) (p : Pallet),
      m.machineType = .twoWheeler →
      m.pallets.find? (fun q => palletMatches q k) = some p →
      ¬ p.currentOccupancy ≥ p.vehicleCapacity →
      1 ≤ j →
      (p.currentBookings.any (fun b => b.position == some j)) = true →
      m.occupyPallet k bid veh (some j) now = .error (.positionTaken (some j)))
  ∧ (∀ (p : Pallet) (bid veh : String) (now i : Nat),
      ¬ p.currentOccupancy ≥ p.vehicleCapacity →
      nextFreePosition p.currentBookings = some i →
      IsLowestFree p.currentBookings i
      ∧ ∃ p1, occupyPalletUpdate .twoWheeler p bid veh none now = .ok p1
          ∧ p1.currentBookings = p.currentBookings ++
            [{ booking := bid, vehicleNumber := jsToUpper veh,
               occupiedSince := now, position := some i }])
  ∧ (sampleReleased.occupyPallet (.num 1) "B7" "KA01AB1007" none 9 = .ok sampleAfterB7
      ∧ (sampleAfterB7.pallets.map fun p => p.currentBookings.map (fun b => b.position))
          = [[some 1, some 2, some 4, some 5, some 6, some 3]]) := by
  refine ⟨?_, ?_, ?_, ?_⟩
  · intro p bid veh pos now p1 h
    unfold occupyPalletUpdate at h
    by_cases hge : p.currentOccupancy ≥ p.vehicleCapacity
    · rw [if_pos hge] at h
      cases h
    · rw [if_neg hge] at h
      dsimp only at h
      simp only [Except.map, Except.ok.injEq] at h
      subst h
      rfl
  · intro m k bid veh j now p hmt hfind hge hj hany
    unfold Machine.occupyPallet
    rw [hfind]
    dsimp only
    unfold occupyPalletUpdate
    rw [hmt, if_neg hge]
    dsimp only
    have hfalsy : positionFalsy (some j) = false := by
      simp only [positionFalsy, beq_eq_false_iff_ne, ne_eq]
      omega
    rw [hfalsy]
    rw [if_neg (show ¬ (false = true) by simp)]
    rw [if_pos hany]
    rfl
  · intro p bid veh now i hge hnext
    have hlow := nextFreePosition_lowest hnext
    refine ⟨hlow, ?_⟩
    unfold occupyPalletUpdate
    rw [if_neg hge]
    dsimp only
    rw [if_pos (show positionFalsy none = true from rfl)]
    rw [hnext]
    dsimp only
    rw [if_neg (show ¬ ((p.currentBookings.any fun b => b.position == some i) = true)
      by simp [hlow.2.2.1])]
    exact ⟨_, rfl, rfl⟩
  · constructor
    · decide
    · decide

/-- Pick the pallet of a successful result, or a default pallet. -/
def okPalletOr (d : Pallet) : Except MachineOpErr Pallet → Pallet
  | .ok p => p
  | .error _ => d

/-- The pallet after a four-wheeler occupy that asked for position 4. -/
def sampleFWOccupied1 : Pallet :=
  okPalletOr emptyPallet6
    (occupyPalletUpdate .fourWheeler emptyPallet6 "B10" "ka05mh1234" (some 4) 3)

/-- The pallet stored on the machine that B3 was released from. -/
def sampleReleasedPallet : Pallet := sampleReleased.pallets.headD emptyPallet6

/-- C4, witness: the three quantified parts applied at concrete states — a
four-wheeler occupy with caller position 4 still lands on position 1, a
two-wheeler occupy aimed at the occupied position 2 of the released pallet fails
PositionTaken, and the auto-assignment on that pallet picks position 3, the
lowest free slot. -/
theorem occupy_position_assignment_witness :
    sampleFWOccupied1.currentBookings = emptyPallet6.currentBookings ++
      [{ booking := "B10", vehicleNumber := jsToUpper "ka05mh1234",
         occupiedSince := 3, position := some 1 }]
  ∧ sampleReleased.occupyPallet (.num 1) "B8" "KA01AB1008" (some 2) 9
      = .error (.positionTaken (some 2))
  ∧ (IsLowestFree sampleReleasedPallet.currentBookings 3
      ∧ ∃ p1, occupyPalletUpdate .twoWheeler sampleReleasedPallet "B7" "KA01AB1007" none 9
          = .ok p1
        ∧ p1.currentBookings = sampleReleasedPallet.currentBookings ++
          [{ booking := "B7", vehicleNumber := jsToUpper "KA01AB1007",
             occupiedSince := 9, position := some 3 }]) := by
  refine ⟨?_, ?_, ?_⟩
  · exact occupy_position_assignment.1 emptyPallet6 "B10" "ka05mh1234" (some 4) 3
      sampleFWOccupied1 (by decide)
  · exact occupy_position_assignment.2.1 sampleReleased (.num 1) "B8" "KA01AB1008" 2 9
      sampleReleasedPallet (by decide) (by decide) (by decide) (by decide) (by decide)
  · exact occupy_position_assignment.2.2.1 sampleReleasedPallet "B7" "KA01AB1007" 9 3
      (by decide) (by decide)

/-! ## Claim C2 -/

/-- An online four-wheeler machine holding a maintenance pallet with spare
capacity. -/
def sampleMaintMachine : Machine :=
  mkMachine .fourWheeler .online
    [{ number := 1, customName := "1", status := .maintenance, vehicleCapacity := 1,
       currentOccupancy := 0, currentBookings := [], occupiedSince := none,
       maintenanceNotes := "stuck tray", lastMaintenance := some 0 }]

/-- Pick the machine of a successful service result, or a default machine. -/
def okServiceMachineOr (d : Machine) : Except ServiceOccupyErr Machine → Machine
  | .ok m => m
  | .error _ => d

/-- The machine after the service-level occupy of its maintenance pallet. -/
def sampleMaintOccupied : Machine :=
  okServiceMachineOr sampleMaintMachine
    (MachineService.occupyPallet (some sampleMaintMachine) (.num 1) "B9" "KA05MH0001" none 3)

/-- C2, counterexample: the occupy path carries no maintenance check — on an
online machine whose pallet is in maintenance with spare capacity, the claimed
PalletMaintenance failure does not happen and the occupy succeeds. -/
theorem occupy_precondition_order_cex :
    sampleMaintMachine.status = .online
  ∧ (sampleMaintMachine.pallets.map fun p => (p.status, p.currentOccupancy, p.vehicleCapacity))
      = [(.maintenance, 0, 1)]
  ∧ MachineService.occupyPallet (some sampleMaintMachine) (.num 1) "B9" "KA05MH0001" none 3
      = .ok sampleMaintOccupied := by
  decide

/-- C2, amended: OccupyPallet fails with distinct error kinds checked in this
order: machine missing, machine not online, no pallet matching the key by number,
int(key) or customName, then pallet at full capacity.  There is no
pallet-maintenance check anywhere on the path: a maintenance pallet with spare
capacity is occupied successfully (shown on a four-wheeler machine, where no
position obstruction exists). -/
theorem occupy_precondition_order :
    (∀ (k : PalletKey) (bid veh : String) (pos : Option Nat) (now : Nat),
      MachineService.occupyPallet none k bid veh pos now = .error .machineNotFound)
  ∧ (∀ (m : Machine) (k : PalletKey) (bid veh : String) (pos : Option Nat) (now : Nat),
      m.status ≠ .online →
      MachineService.occupyPallet (some m) k bid veh pos now = .error .machineNotOnline)
  ∧ (∀ (m : Machine) (k : PalletKey) (bid veh : String) (pos : Option Nat) (now : Nat),
      m.status = .online →
      m.pallets.find? (fun q => palletMatches q k) = none →
      MachineService.occupyPallet (some m) k bid veh pos now
        = .error (.opFailed (.palletNotFound k)))
  ∧ (∀ (m : Machine) (k : PalletKey) (bid veh : String) (pos : Option Nat) (now : Nat)
       (p : Pallet),
      m.status = .online →
      m.pallets.find? (fun q => palletMatches q k) = some p →
      p.currentOccupancy ≥ p.vehicleCapacity →
      MachineService.occupyPallet (some m) k bid veh pos now
        = .error (.opFailed .palletFull))
  ∧ (∀ (m : Machine) (k : PalletKey) (bid veh : String) (pos : Option Nat) (now : Nat)
       (p : Pallet),
      m.status = .online →
      m.machineType = .fourWheeler →
      m.pallets.find? (fun q => palletMatches q k) = some p →
      ¬ p.currentOccupancy ≥ p.vehicleCapacity →
      p.status = .maintenance →
      ∃ m1, MachineService.occupyPallet (some m) k bid veh pos now = .ok m1) := by
  refine ⟨?_, ?_, ?_, ?_, ?_⟩
  · intro k bid veh pos now
    rfl
  · intro m k bid veh pos now hst
    unfold MachineService.occupyPallet
    dsimp only
    rw [if_pos hst]
  · intro m k bid veh pos now hst hfind
    unfold MachineService.occupyPallet
    dsimp only
    rw [if_neg (by simp [hst])]
    unfold Machine.occupyPallet
    rw [hfind]
  · intro m k bid veh pos now p hst hfind hfull
    unfold MachineService.occupyPallet
    dsimp only
    rw [if_neg (by simp [hst])]
    unfold Machine.occupyPallet
    rw [hfind]
    dsimp only
    unfold occupyPalletUpdate
    rw [if_pos hfull]
    rfl
  · intro m k bid veh pos now p hst hmt hfind hge hmaint
    unfold MachineService.occupyPallet
    dsimp only
    rw [if_neg (by simp [hst])]
    unfold Machine.occupyPallet
    rw [hfind]
    dsimp only
    unfold occupyPalletUpdate
    rw [hmt, if_neg hge]
    exact ⟨_, rfl⟩

/-- C2, witness: the five parts applied at concrete states, covering a missing
machine, an offline machine, a missing pallet, a full pallet, and the successful
occupy of a maintenance pallet with spare capacity. -/
theorem occupy_precondition_order_witness :
    MachineService.occupyPallet none (.num 1) "B1" "KA01AB1001" none 0
      = .error .machineNotFound
  ∧ MachineService.occupyPallet (some (mkMachine .twoWheeler .offline [fullPallet6]))
      (.num 1) "B1" "KA01AB1001" none 0 = .error .machineNotOnline
  ∧ MachineService.occupyPallet (some sampleFullTW) (.num 99) "B1" "KA01AB1001" none 0
      = .error (.opFailed (.palletNotFound (.num 99)))
  ∧ MachineService.occupyPallet (some sampleFullTW) (.num 1) "B7" "KA01AB1007" none 0
      = .error (.opFailed .palletFull)
  ∧ ∃ m1, MachineService.occupyPallet (some sampleMaintMachine) (.num 1) "B9" "KA05MH0001"
      none 3 = .ok m1 := by
  refine ⟨?_, ?_, ?_, ?_, ?_⟩
  · exact occupy_precondition_order.1 (.num 1) "B1" "KA01AB1001" none 0
  · exact occupy_precondition_order.2.1 (mkMachine .twoWheeler .offline [fullPallet6])
      (.num 1) "B1" "KA01AB1001" none 0 (by decide)
  · exact occupy_precondition_order.2.2.1 sampleFullTW (.num 99) "B1" "KA01AB1001" none 0
      (by decide) (by decide)
  · exact occupy_precondition_order.2.2.2.1 sampleFullTW (.num 1) "B7" "KA01AB1007" none 0
      fullPallet6 (by decide) (by decide) (by decide)
  · exact occupy_precondition_order.2.2.2.2 sampleMaintMachine (.num 1) "B9" "KA05MH0001"
      none 3 (sampleMaintMachine.pallets.headD emptyPallet6) (by decide) (by decide)
      (by decide) (by decide) (by decide)

/-! ## Claim C5 -/

theorem find?_updateFirst_none {α : Type} {q q2 : α → Bool} {f : α → α} :
    ∀ {l : List α} {b : α},
    l.find? q = some b →
    l.countP q = 1 →
    (∀ x ∈ l, q2 x = true → q x = true) →
    q2 (f b) = false →
    (updateFirst q f l).find? q2 = none := by
  intro l
  induction l with
  | nil =>
    intro b h
    simp at h
  | cons a as ih =>
    intro b hfind hcount himp hfb
    by_cases hqa : q a = true
    · rw [List.find?_cons_of_pos _ hqa] at hfind
      injection hfind with hba
      subst hba
      have hc0 : as.countP q = 0 := by
        rw [List.countP_cons_of_pos q as hqa] at hcount
        omega
      have hnone := List.countP_eq_zero.mp hc0
      simp only [updateFirst, if_pos hqa]
      rw [List.find?_cons_of_neg _ (by simp [hfb])]
      apply List.find?_eq_none.mpr
      intro x hx hq2
      exact hnone x hx (himp x (List.mem_cons_of_mem a hx) hq2)
    · rw [List.find?_cons_of_neg _ hqa] at hfind
      rw [List.countP_cons_of_neg q as hqa] at hcount
      simp only [updateFirst, if_neg hqa]
      have hq2a : ¬ q2 a = true := fun h2 => hqa (himp a (List.mem_cons_self a as) h2)
      rw [List.find?_cons_of_neg _ hq2a]
      exact ih hfind hcount (fun x hx h2 => himp x (List.mem_cons_of_mem a hx) h2) hfb

theorem verifyOTP_ok_decomp {store : List Booking} {code : String} {now : Nat}
    {b1 : Booking} {store1 : List Booking}
    (h : BookingService.verifyOTP store code now = .ok (b1, store1)) :
    ∃ b, store.find? (otpMatches code now) = some b
      ∧ b1 = { b with otp := { b.otp with isUsed := true, usedAt := some now } }
      ∧ store1 = updateFirst (otpMatches code now) (fun _ => b1) store := by
  unfold BookingService.verifyOTP at h
  cases hfind : store.find? (otpMatches code now) with
  | none =>
    rw [hfind] at h
    cases h
  | some b =>
    rw [hfind] at h
    dsimp only at h
    have hpred : otpMatches code now b = true := List.find?_some hfind
    have hvalid : b.isOTPValid now = true := by
      unfold otpMatches at hpred
      simp only [Bool.and_eq_true] at hpred
      unfold Booking.isOTPValid
      simp [hpred.1.1.2, hpred.1.2]
    unfold Booking.useOTP at h
    rw [if_pos hvalid] at h
    dsimp only at h
    simp only [Except.ok.injEq, Prod.mk.injEq] at h
    obtain ⟨hb, hs⟩ := h
    exact ⟨b, rfl, hb.symm, by rw [← hs, ← hb]⟩

/-- C5: VerifyOTP succeeds exactly when some active booking carries a matching,
unused, unexpired OTP; on success the OTP is marked used with the redemption time
while the booking status stays active; and when the code matched exactly one
booking, a second call with the same code at any later time fails with the
invalid-or-expired error. -/
theorem verify_otp_spec :
    (∀ (store : List Booking) (code : String) (now : Nat),
      (∃ r, BookingService.verifyOTP store code now = .ok r)
        ↔ ∃ b ∈ store, otpMatches code now b = true)
  ∧ (∀ (store : List Booking) (code : String) (now : Nat) (b1 : Booking)
       (store1 : List Booking),
      BookingService.verifyOTP store code now = .ok (b1, store1) →
      b1.otp.isUsed = true ∧ b1.otp.usedAt = some now ∧ b1.status = .active)
  ∧ (∀ (store : List Booking) (code : String) (now now2 : Nat) (b1 : Booking)
       (store1 : List Booking),
      BookingService.verifyOTP store code now = .ok (b1, store1) →
      store.countP (otpMatches code now) = 1 →
      now ≤ now2 →
      BookingService.verifyOTP store1 code now2 = .error .invalidOrExpiredOTP) := by
  refine ⟨?_, ?_, ?_⟩
  · intro store code now
    constructor
    · rintro ⟨r, hr⟩
      unfold BookingService.verifyOTP at hr
      cases hfind : store.find? (otpMatches code now) with
      | none =>
        rw [hfind] at hr
        cases hr
      | some b =>
        exact ⟨b, List.mem_of_find?_eq_some hfind, List.find?_some hfind⟩
    · rintro ⟨b, hb, hpred⟩
      have hsome : (store.find? (otpMatches code now)).isSome :=
        List.find?_isSome.mpr ⟨b, hb, hpred⟩
      cases hfind : store.find? (otpMatches code now) with
      | none =>
        rw [hfind] at hsome
        cases hsome
      | some b0 =>
        have hpred0 : otpMatches code now b0 = true := List.find?_some hfind
        have hvalid : b0.isOTPValid now = true := by
          unfold otpMatches at hpred0
          simp only [Bool.and_eq_true] at hpred0
          unfold Booking.isOTPValid
          simp [hpred0.1.1.2, hpred0.1.2]
        unfold BookingService.verifyOTP
        rw [hfind]
        dsimp only
        unfold Booking.useOTP
        rw [if_pos hvalid]
        exact ⟨_, rfl⟩
  · intro store code now b1 store1 h
    obtain ⟨b, hfind, hb1, _⟩ := verifyOTP_ok_decomp h
    have hpred : otpMatches code now b = true := List.find?_some hfind
    unfold otpMatches at hpred
    simp only [Bool.and_eq_true, beq_iff_eq] at hpred
    subst hb1
    exact ⟨rfl, rfl, hpred.2⟩
  · intro store code now now2 b1 store1 h hcount hle
    obtain ⟨b, hfind, hb1, hstore1⟩ := verifyOTP_ok_decomp h
    have hfb : otpMatches code now2 b1 = false := by
      subst hb1
      unfold otpMatches
      simp
    have himp : ∀ x ∈ store, otpMatches code now2 x = true → otpMatches code now x = true := by
      intro x hx h2
      unfold otpMatches at h2 ⊢
      simp only [Bool.and_eq_true, decide_eq_true_eq] at h2 ⊢
      exact ⟨⟨⟨h2.1.1.1, h2.1.1.2⟩, by omega⟩, h2.2⟩
    have hnone := @find?_updateFirst_none Booking (otpMatches code now)
      (otpMatches code now2) (fun _ => b1) store b hfind hcount himp hfb
    unfold BookingService.verifyOTP
    rw [hstore1, hnone]

/-- A concrete active booking with a fresh OTP, for the C5 and C6 witnesses. -/
def otpB30 : Booking :=
  { id := "B30", bookingNumber := "BKTW00000001", siteId := "SITE1",
    customer := "C1", customerName := "Asha Rao", phoneNumber := "9876543210",
    vehicleNumber := "KA01AB1234", vehicleType := .twoWheeler,
    machineNumber := "M001", palletNumber := 1, status := .active,
    startTime := 0, endTime := none,
    otp := { code := "482913", generatedAt := 0, expiresAt := 1800000,
             isUsed := false, usedAt := none },
    payment := { amount := 0, payStatus := .pending },
    notes := "", specialInstructions := "", createdBy := "OP1", updatedBy := none }

/-- The booking after its OTP was redeemed at time 1000. -/
def otpB30Used : Booking :=
  { otpB30 with otp := { otpB30.otp with isUsed := true, usedAt := some 1000 } }

/-- C5, witness: on a one-booking store the OTP 482913 redeems at time 1000, and
the second call at time 1500 fails with the invalid-or-expired error. -/
theorem verify_otp_spec_witness :
    (∃ r, BookingService.verifyOTP [otpB30] "482913" 1000 = .ok r)
  ∧ BookingService.verifyOTP [otpB30Used] "482913" 1500
      = .error .invalidOrExpiredOTP := by
  constructor
  · exact (verify_otp_spec.1 [otpB30] "482913" 1000).mpr
      ⟨otpB30, by simp, by decide⟩
  · exact verify_otp_spec.2.2 [otpB30] "482913" 1000 1500 otpB30Used [otpB30Used]
      (by decide) (by decide) (by decide)

/-! ## Claim C7 -/

/-- An active booking to be cancelled. -/
def b40Active : Booking := { otpB30 with id := "B40" }

/-- A completed booking. -/
def b41Completed : Booking := { otpB30 with id := "B41", status := .completed }

/-- An already cancelled booking. -/
def b42Cancelled : Booking := { otpB30 with id := "B42", status := .cancelled }

/-- C7: the terminal-status guards behave as the claim says, but cancelling an
active booking never reaches the cancel effects: the service calls
booking.delete(reason), the Booking model defines no delete method (its instance
methods are listed in bookingInstanceMethods), and the resulting TypeError is
surfaced by the catch block as the internal 500 failure — the booking is left
active and no pallet-release side-effect is attempted. -/
theorem cancel_booking_crashes :
    bookingInstanceMethods.contains "delete" = false
  ∧ b40Active.status = .active
  ∧ BookingService.cancelBooking { customers := [], bookings := [b40Active], machines := [] }
      "B40" (some "customer left") "OP1"
      = .error (.internalFailure "Failed to cancel booking")
  ∧ BookingService.cancelBooking { customers := [], bookings := [b41Completed], machines := [] }
      "B41" none "OP1" = .error .cannotCancelCompleted
  ∧ BookingService.cancelBooking { customers := [], bookings := [b42Cancelled], machines := [] }
      "B42" none "OP1" = .error .alreadyCancelled
  ∧ BookingService.cancelBooking { customers := [], bookings := [], machines := [] }
      "B40" none "OP1" = .error .bookingNotFound := by
  decide

/-! ## Claim C8 -/

/-- A customer holding an active yearly membership covering two-wheelers, as in
spec scenario 5. -/
def memberCust : Customer :=
  { id := "C9", firstName := "Mira", lastName := "Shah", phoneNumber := "9123456780",
    email := none, vehicles := [],
    membership := { membershipNumber := some "123456", pin := some "1234",
                    membershipType := some .yearly, vehicleTypes := [.twoWheeler],
                    issuedDate := some 0, expiryDate := some 9999, isActive := true },
    customerStatus := .active }

/-- C8: on a customer with an active, non-expired membership, a requested coverage
that is a subset of the existing coverage fails AlreadyCovered; a coverage that is
not covered yet extends the set in place, keeping the expiry date, membership
number and PIN, issuing no new number; and every successful creation appends
exactly one MembershipPayment ledger row with status completed. -/
theorem create_membership_coverage :
    (∀ (customers : List Customer) (ledger : List MembershipPayment) (cid : String)
       (mtype : MembershipType) (term : Nat) (cb : String) (vts : List VehicleType)
       (payA : Option Int) (payM : Option String) (now : Nat) (fn fp : String)
       (c : Customer),
      customers.find? (fun x => x.id == cid) = some c →
      c.customerStatus = .active →
      membershipActiveUnexpired c.membership now = true →
      (vts.all fun v => c.membership.vehicleTypes.contains v) = true →
      CustomerService.createCustomerMembership customers ledger cid mtype term cb vts
        payA payM now fn fp = .error .alreadyCovered)
  ∧ (∀ (customers : List Customer) (ledger : List MembershipPayment) (cid : String)
       (mtype : MembershipType) (term : Nat) (cb : String) (vts : List VehicleType)
       (payA : Option Int) (payM : Option String) (now : Nat) (fn fp : String)
       (c : Customer),
      customers.find? (fun x => x.id == cid) = some c →
      c.customerStatus = .active →
      membershipActiveUnexpired c.membership now = true →
      (vts.all fun v => c.membership.vehicleTypes.contains v) = false →
      ∃ c1 row,
        CustomerService.createCustomerMembership customers ledger cid mtype term cb vts
          payA payM now fn fp
          = .ok (updateFirst (fun x => x.id == cid) (fun _ => c1) customers, ledger ++ [row])
        ∧ c1.membership.expiryDate = c.membership.expiryDate
        ∧ c1.membership.membershipNumber = c.membership.membershipNumber
        ∧ c1.membership.pin = c.membership.pin
        ∧ (∀ v, v ∈ c1.membership.vehicleTypes
            ↔ v ∈ c.membership.vehicleTypes ∨ v ∈ vts)
        ∧ row.rowStatus = "completed")
  ∧ (∀ (customers : List Customer) (ledger : List MembershipPayment) (cid : String)
       (mtype : MembershipType) (term : Nat) (cb : String) (vts : List VehicleType)
       (payA : Option Int) (payM : Option String) (now : Nat) (fn fp : String)
       (cs1 : List Customer) (ledger1 : List MembershipPayment),
      CustomerService.createCustomerMembership customers ledger cid mtype term cb vts
        payA payM now fn fp = .ok (cs1, ledger1) →
      ∃ row, ledger1 = ledger ++ [row] ∧ row.rowStatus = "completed") := by
  refine ⟨?_, ?_, ?_⟩
  · intro customers ledger cid mtype term cb vts payA payM now fn fp c
      hfind hstatus hactive hsub
    unfold CustomerService.createCustomerMembership
    rw [hfind]
    dsimp only
    rw [if_neg (by simp [hstatus])]
    unfold Customer.createMembership
    dsimp only
    rw [if_pos hactive, if_pos hsub]
  · intro customers ledger cid mtype term cb vts payA payM now fn fp c
      hfind hstatus hactive hsub
    unfold CustomerService.createCustomerMembership
    rw [hfind]
    dsimp only
    rw [if_neg (by simp [hstatus])]
    unfold Customer.createMembership
    dsimp only
    rw [if_pos hactive]
    rw [if_neg (by rw [hsub]; exact Bool.false_ne_true)]
    dsimp only
    refine ⟨_, _, rfl, rfl, rfl, rfl, ?_, rfl⟩
    intro v
    simp only [List.mem_append, List.mem_filter]
    constructor
    · rintro (hv | ⟨hv, _⟩)
      · exact .inl hv
      · exact .inr hv
    · rintro (hv | hv)
      · exact .inl hv
      · by_cases hold : v ∈ c.membership.vehicleTypes
        · exact .inl hold
        · refine .inr ⟨hv, ?_⟩
          simp only [Bool.not_eq_true']
          cases hc : c.membership.vehicleTypes.contains v with
          | false => rfl
          | true => exact absurd (List.elem_iff.mp hc) hold
  · intro customers ledger cid mtype term cb vts payA payM now fn fp cs1 ledger1 h
    unfold CustomerService.createCustomerMembership at h
    cases hfind : customers.find? (fun x => x.id == cid) with
    | none =>
      rw [hfind] at h
      cases h
    | some c =>
      rw [hfind] at h
      dsimp only at h
      by_cases hstatus : c.customerStatus ≠ .active
      · rw [if_pos hstatus] at h
        cases h
      · rw [if_neg hstatus] at h
        cases hcm : c.createMembership mtype term vts now fn fp with
        | error e =>
          rw [hcm] at h
          cases h
        | ok c1 =>
          rw [hcm] at h
          dsimp only at h
          simp only [Except.ok.injEq, Prod.mk.injEq] at h
          exact ⟨_, h.2.symm, rfl⟩

/-- C8, witness: the theorem applied to the spec scenario — requesting two-wheeler
coverage again fails AlreadyCovered; requesting four-wheeler coverage extends the
set in place with the expiry and number kept and appends one completed ledger
row. -/
theorem create_membership_coverage_witness :
    CustomerService.createCustomerMembership [memberCust] [] "C9" .yearly 12 "OP1"
      [.twoWheeler] (some 4000) (some "upi") 100 "654321" "4321"
      = .error .alreadyCovered
  ∧ ∃ c1 row,
      CustomerService.createCustomerMembership [memberCust] [] "C9" .yearly 12 "OP1"
        [.fourWheeler] (some 4000) (some "upi") 100 "654321" "4321"
        = .ok (updateFirst (fun x => x.id == "C9") (fun _ => c1) [memberCust], [] ++ [row])
      ∧ c1.membership.expiryDate = memberCust.membership.expiryDate
      ∧ c1.membership.membershipNumber = memberCust.membership.membershipNumber
      ∧ c1.membership.pin = memberCust.membership.pin
      ∧ (∀ v, v ∈ c1.membership.vehicleTypes
          ↔ v ∈ memberCust.membership.vehicleTypes ∨ v ∈ [VehicleType.fourWheeler])
      ∧ row.rowStatus = "completed" := by
  constructor
  · exact create_membership_coverage.1 [memberCust] [] "C9" .yearly 12 "OP1"
      [.twoWheeler] (some 4000) (some "upi") 100 "654321" "4321" memberCust
      (by decide) (by decide) (by decide) (by decide)
  · exact create_membership_coverage.2.1 [memberCust] [] "C9" .yearly 12 "OP1"
      [.fourWheeler] (some 4000) (some "upi") 100 "654321" "4321" memberCust
      (by decide) (by decide) (by decide) (by decide)

/-! ## Claim C9 -/

/-- A user assigned to site A whose primary site is the different site B. -/
def siteUserB : UserDoc := { id := "u1", assignedSites := ["A"], primarySite := some "B" }

/-- A world with sites A and B, no machines or bookings, and that one user. -/
def c9Stores : SiteStores :=
  { sites := ["A", "B"], machines := [], bookings := [], users := [siteUserB] }

/-- C9, counterexample: deleting site A clears the primarySite of a user whose
primarySite is the different site B, merely because the user was assigned to A —
the claim said a non-matching primarySite is left unchanged. -/
theorem delete_site_effects_cex :
    siteUserB.primarySite = some "B"
  ∧ SiteService.deleteSitePermanently c9Stores "A" false
      = .ok { sites := ["B"], machines := [], bookings := [],
              users := [{ id := "u1", assignedSites := [], primarySite := none }] } := by
  decide

/-- C9, amended: DeleteSitePermanently removes the site's machines and bookings
only when force is supplied, rejecting otherwise when either count is non-zero;
and in either case it strips the deleted site from every user's assignedSites and
unconditionally clears the primarySite of every user that was assigned to the
site, whatever that primarySite named, while a user not assigned to the site is
untouched even when their primarySite names it. -/
theorem delete_site_effects :
    (∀ (st : SiteStores) (siteId : String),
      st.sites.contains siteId = true →
      (st.bookings.filter (fun b => b.siteId == siteId)).length > 0 →
      SiteService.deleteSitePermanently st siteId false = .error .hasBookingRecords)
  ∧ (∀ (st : SiteStores) (siteId : String),
      st.sites.contains siteId = true →
      (st.bookings.filter (fun b => b.siteId == siteId)).length = 0 →
      (st.machines.filter (fun m => m.siteId == siteId)).length > 0 →
      SiteService.deleteSitePermanently st siteId false = .error .hasMachines)
  ∧ (∀ (st : SiteStores) (siteId : String) (st1 : SiteStores),
      SiteService.deleteSitePermanently st siteId true = .ok st1 →
      st1.machines = st.machines.filter (fun m => m.siteId != siteId)
      ∧ st1.bookings = st.bookings.filter (fun b => b.siteId != siteId))
  ∧ (∀ (st : SiteStores) (siteId : String) (st1 : SiteStores) (force : Bool),
      SiteService.deleteSitePermanently st siteId force = .ok st1 →
      st1.users = st.users.map (siteUserUpdate siteId))
  ∧ (∀ (siteId : String) (u : UserDoc),
      u.assignedSites.contains siteId = true →
      (siteUserUpdate siteId u).assignedSites = u.assignedSites.filter (fun s => s != siteId)
      ∧ (siteUserUpdate siteId u).primarySite = none)
  ∧ (∀ (siteId : String) (u : UserDoc),
      u.assignedSites.contains siteId = false →
      siteUserUpdate siteId u = u) := by
  refine ⟨?_, ?_, ?_, ?_, ?_, ?_⟩
  · intro st siteId hsite hcount
    unfold SiteService.deleteSitePermanently
    rw [if_neg (by rw [hsite]; simp)]
    dsimp only
    rw [if_pos ⟨hcount, rfl⟩]
  · intro st siteId hsite hbk0 hmc
    unfold SiteService.deleteSitePermanently
    rw [if_neg (by rw [hsite]; simp)]
    dsimp only
    rw [if_neg (by simp [hbk0])]
    have hact0 : (st.bookings.filter (fun b => b.siteId == siteId && b.status == .active)).length = 0 := by
      rw [List.length_eq_zero] at hbk0 ⊢
      rw [List.filter_eq_nil_iff] at hbk0 ⊢
      intro b hb hpred
      exact hbk0 b hb (by
        simp only [Bool.and_eq_true] at hpred
        exact hpred.1)
    rw [if_neg (by simp [hact0])]
    rw [if_pos ⟨hmc, rfl⟩]
  · intro st siteId st1 h
    unfold SiteService.deleteSitePermanently at h
    by_cases hsite : st.sites.contains siteId = true
    · rw [if_neg (by rw [hsite]; simp)] at h
      dsimp only at h
      rw [if_neg (by simp)] at h
      rw [if_neg (by simp)] at h
      rw [if_neg (by simp)] at h
      by_cases hmc : (st.machines.filter (fun m => m.siteId == siteId)).length > 0
      · rw [if_pos ⟨hmc, rfl⟩] at h
        by_cases hbc : (st.bookings.filter (fun b => b.siteId == siteId)).length > 0
        · rw [if_pos ⟨hbc, rfl⟩] at h
          simp only [Except.ok.injEq] at h
          subst h
          exact ⟨rfl, rfl⟩
        · rw [if_neg (by simp [hbc])] at h
          simp only [Except.ok.injEq] at h
          subst h
          refine ⟨rfl, ?_⟩
          show st.bookings = st.bookings.filter (fun b => b.siteId != siteId)
          symm
          rw [List.filter_eq_self]
          intro b hb
          simp only [bne_iff_ne, ne_eq]
          intro hbs
          refine absurd (List.length_pos.mpr fun hnil => ?_) hbc
          rw [List.filter_eq_nil_iff] at hnil
          exact hnil b hb (by simp [hbs])
      · rw [if_neg (by simp [hmc])] at h
        by_cases hbc : (st.bookings.filter (fun b => b.siteId == siteId)).length > 0
        · rw [if_pos ⟨hbc, rfl⟩] at h
          simp only [Except.ok.injEq] at h
          subst h
          refine ⟨?_, rfl⟩
          show st.machines = st.machines.filter (fun m => m.siteId != siteId)
          symm
          rw [List.filter_eq_self]
          intro m hm
          simp only [bne_iff_ne, ne_eq]
          intro hms
          refine absurd (List.length_pos.mpr fun hnil => ?_) hmc
          rw [List.filter_eq_nil_iff] at hnil
          exact hnil m hm (by simp [hms])
        · rw [if_neg (by simp [hbc])] at h
          simp only [Except.ok.injEq] at h
          subst h
          constructor
          · show st.machines = st.machines.filter (fun m => m.siteId != siteId)
            symm
            rw [List.filter_eq_self]
            intro m hm
            simp only [bne_iff_ne, ne_eq]
            intro hms
            refine absurd (List.length_pos.mpr fun hnil => ?_) hmc
            rw [List.filter_eq_nil_iff] at hnil
            exact hnil m hm (by simp [hms])
          · show st.bookings = st.bookings.filter (fun b => b.siteId != siteId)
            symm
            rw [List.filter_eq_self]
            intro b hb
            simp only [bne_iff_ne, ne_eq]
            intro hbs
            refine absurd (List.length_pos.mpr fun hnil => ?_) hbc
            rw [List.filter_eq_nil_iff] at hnil
            exact hnil b hb (by simp [hbs])
    · have hsf : st.sites.contains siteId = false := by
        cases hcb : st.sites.contains siteId
        · rfl
        · exact absurd hcb hsite
      rw [if_pos (show (!st.sites.contains siteId) = true by rw [hsf]; rfl)] at h
      cases h
  · intro st siteId st1 force h
    unfold SiteService.deleteSitePermanently at h
    by_cases hsite : (!(st.sites.contains siteId)) = true
    · rw [if_pos hsite] at h
      cases h
    · rw [if_neg hsite] at h
      dsimp only at h
      split at h
      · cases h
      · split at h
        · cases h
        · split at h
          · cases h
          · simp only [Except.ok.injEq] at h
            subst h
            rfl
  · intro siteId u hc
    unfold siteUserUpdate
    rw [if_pos hc]
    exact ⟨rfl, rfl⟩
  · intro siteId u hc
    unfold siteUserUpdate
    rw [if_neg (by rw [hc]; exact Bool.false_ne_true)]

/-- C9, witness: a world with one machine and one historical booking at site A —
without force the deletion is rejected on the booking records; with force it
succeeds, drops the machine and the booking, and applies the user update, which
clears the assigned user's primarySite. -/
theorem delete_site_effects_witness :
    SiteService.deleteSitePermanently
      { sites := ["A"], machines := [mkMachine .twoWheeler .online []],
        bookings := [{ otpB30 with siteId := "A" }], users := [siteUserB] } "A" false
      = .error .hasBookingRecords
  ∧ (∀ st1, SiteService.deleteSitePermanently
      { sites := ["A"], machines := [{ mkMachine .twoWheeler .online [] with siteId := "A" }],
        bookings := [{ otpB30 with siteId := "A" }], users := [siteUserB] } "A" true
        = .ok st1 → st1.users = [siteUserB].map (siteUserUpdate "A"))
  ∧ (siteUserUpdate "A" siteUserB).primarySite = none := by
  refine ⟨?_, ?_, ?_⟩
  · exact delete_site_effects.1
      { sites := ["A"], machines := [mkMachine .twoWheeler .online []],
        bookings := [{ otpB30 with siteId := "A" }], users := [siteUserB] } "A"
      (by decide) (by decide)
  · intro st1 h
    exact delete_site_effects.2.2.2.1
      { sites := ["A"], machines := [{ mkMachine .twoWheeler .online [] with siteId := "A" }],
        bookings := [{ otpB30 with siteId := "A" }], users := [siteUserB] } "A" st1 true h
  · exact (delete_site_effects.2.2.2.2.1 "A" siteUserB (by decide)).2

/-! ## Claim C6 -/

/-- A well-formed create-booking payload whose machine number and pallet number
vary. -/
def c6BaseInput (mn : String) (pn : Nat) : CreateBookingInput :=
  { customerName := "Asha Rao", phoneNumber := "9876543210",
    vehicleNumber := "KA01AB1234", vehicleType := .twoWheeler,
    machineNumber := mn, palletNumber := pn,
    email := none, notes := none, specialInstructions := none }

/-- C6, counterexample: creating booking B20 on machine M003 pallet 99 — the
spec example — does not persist an active booking: pallet 99 passes the
service-level format check (any positive number) but fails the booking schema
validation, whose palletNumber field carries max 8, so the request errors. -/
theorem create_booking_overbooking_cex :
    BookingService.createBooking { customers := [], bookings := [], machines := [] }
      (c6BaseInput "M003" 99) "OP1" (some "SITE1") "482913" "C1" "B20" 123456789
      = .error .bookingValidationFailed := by
  decide

/-- C6, amended: CreateBooking accepts pallet numbers 1..8 without checking
machine capacity or pallet existence — for any machine store, even one without
the named machine or pallet, the booking is persisted with status active and a
failing pallet-occupancy side-effect never fails the request — while a booking
with a pallet number outside 1..8 is never persisted: the schema validation at
save time bounds it. -/
theorem create_booking_overbooking :
    (∀ (machines : List Machine) (bookings : List Booking) (mn : String) (pn : Nat)
       (sid cb otpCode cid bid : String) (now : Nat),
      matchesMachineCode (jsToUpper mn) = true →
      1 ≤ pn → pn ≤ 8 →
      otpCode.length = 6 →
      otpCode.toList.all (fun c => c.isDigit) = true →
      ∃ r, BookingService.createBooking
          { customers := [], bookings := bookings, machines := machines }
          (c6BaseInput mn pn) cb (some sid) otpCode cid bid now = .ok r
        ∧ r.booking.status = .active
        ∧ r.booking.palletNumber = pn
        ∧ r.booking.machineNumber = jsToUpper mn
        ∧ r.stores.bookings = bookings ++ [r.booking])
  ∧ (∀ (st : Stores) (input : CreateBookingInput) (cb sid otpCode cid bid : String)
       (now : Nat) (r : CreateBookingResult),
      BookingService.createBooking st input cb (some sid) otpCode cid bid now = .ok r →
      r.booking.palletNumber = input.palletNumber
      ∧ 1 ≤ input.palletNumber ∧ input.palletNumber ≤ 8) := by
  constructor
  · intro machines bookings mn pn sid cb otpCode cid bid now h1 h2 h3 hlen hdig
    unfold BookingService.createBooking
    dsimp only [c6BaseInput, List.find?]
    rw [if_neg (by decide)]
    rw [if_pos (by rfl)]
    have hvm : BookingService.validateMachinePallet mn pn = .ok () := by
      unfold BookingService.validateMachinePallet
      rw [if_neg (by simp [h1])]
      rw [if_neg (by omega)]
    rw [hvm]
    dsimp only
    rw [if_neg ?hval]
    case hval =>
      simp only [Bool.not_eq_true']
      show bookingSchemaValidate _ = false → False
      intro hfalse
      unfold bookingSchemaValidate at hfalse
      dsimp only at hfalse
      rw [show matchesMachineCode (jsToUpper mn) = true from h1] at hfalse
      rw [show (decide (1 ≤ pn)) = true from decide_eq_true h2] at hfalse
      rw [show (decide (pn ≤ 8)) = true from decide_eq_true h3] at hfalse
      rw [show (otpCode.length == 6) = true by simp [hlen]] at hfalse
      rw [show otpCode.toList.all (fun c => c.isDigit) = true from hdig] at hfalse
      revert hfalse
      decide
    exact ⟨_, rfl, rfl, rfl, rfl, rfl⟩
  · intro st input cb sid otpCode cid bid now r h
    unfold BookingService.createBooking at h
    dsimp only at h
    split at h <;> try cases h
    all_goals (first | (split at h <;> try cases h) | skip)
    all_goals (first | (split at h <;> try cases h) | skip)
    all_goals (first | (split at h <;> try cases h) | skip)
    all_goals (first | (split at h <;> try cases h) | skip)
    all_goals
      rename_i hval
    all_goals
      simp only [Bool.not_eq_true'] at hval
    all_goals
      have hv := Bool.ne_false_iff.mp hval
    all_goals
      unfold bookingSchemaValidate at hv
    all_goals
      dsimp only at hv
    all_goals
      simp only [Bool.and_eq_true, decide_eq_true_eq] at hv
    all_goals
      exact ⟨rfl, hv.1.1.1.1.2, hv.1.1.1.2⟩

/-- The machine M003 at SITE1 holding a single pallet numbered 1, so that pallet
5 does not exist on it. -/
def machineM003 : Machine :=
  { mkMachine .twoWheeler .online [emptyPallet6] with machineNumber := "M003" }

/-- C6, witness: the theorem applied to pallet 5 on machine M003, whose only
pallet is number 1 — the occupy side-effect cannot find pallet 5, yet the
booking is persisted with status active. -/
theorem create_booking_overbooking_witness :
    ∃ r, BookingService.createBooking
        { customers := [], bookings := [], machines := [machineM003] }
        (c6BaseInput "M003" 5) "OP1" (some "SITE1") "482913" "C1" "B20" 123456789
        = .ok r
      ∧ r.booking.status = .active
      ∧ r.booking.palletNumber = 5
      ∧ r.booking.machineNumber = jsToUpper "M003"
      ∧ r.stores.bookings = [] ++ [r.booking] :=
  create_booking_overbooking.1 [machineM003] [] "M003" 5 "SITE1" "OP1" "482913"
    "C1" "B20" 123456789 (by decide) (by decide) (by decide) (by decide) (by decide)

end ParkingBackend
